import Mathlib

/-!
# Carla LV2 backend (`src/carla/lv2.cpp`): plugin lifecycle and URI table

A shallow embedding of `class Lv2Plugin` and `add_plugin_lv2`.

* C strings are `String`; `strcmp(a, b) == 0` is `a = b`; a pointer that may be
  `nullptr` is an `Option`.
* Calls into collaborators (the dynamic loader, the plugin's descriptor table,
  JACK, the RDF helpers, `set_last_error`) are recorded, in program order, as a
  list of `Event`s; what they return is read from an `Env` record.
* `int` / `uint32_t` conversions are written out with `% 2 ^ 32`.
-/

namespace Carla

/-! ## Constants -/

/-- Source: `const uint32_t lv2_feature_id_uri_map = 0;` -/
def lv2_feature_id_uri_map : Nat := 0
/-- Source: `const uint32_t lv2_feature_id_urid_map = 1;` -/
def lv2_feature_id_urid_map : Nat := 1
/-- Source: `const uint32_t lv2_feature_id_urid_unmap = 2;` -/
def lv2_feature_id_urid_unmap : Nat := 2
/-- Source: `const uint32_t lv2_feature_id_event = 3;` -/
def lv2_feature_id_event : Nat := 3
/-- Source: `const uint32_t lv2_feature_count = 4;` -/
def lv2_feature_count : Nat := 4

/-- Source: `const uint32_t CARLA_URI_MAP_ID_ATOM_STRING = 1;` -/
def CARLA_URI_MAP_ID_ATOM_STRING : Nat := 1
/-- Source: `const uint32_t CARLA_URI_MAP_ID_EVENT_MIDI = 2;` -/
def CARLA_URI_MAP_ID_EVENT_MIDI : Nat := 2
/-- Source: `const uint32_t CARLA_URI_MAP_ID_EVENT_TIME = 3;` -/
def CARLA_URI_MAP_ID_EVENT_TIME : Nat := 3
/-- Source: `const uint32_t CARLA_URI_MAP_ID_COUNT = 4;` -/
def CARLA_URI_MAP_ID_COUNT : Nat := 4

/-! ## URI table (`QList<const char*> custom_uri_ids`) -/

/-- The member `QList<const char*> custom_uri_ids`: a list of possibly-null C strings. -/
abbrev UriTable := List (Option String)

/-- The table the constructor builds:
`for (uint32_t i=0; i < CARLA_URI_MAP_ID_COUNT; i++) custom_uri_ids.append(nullptr);` -/
def custom_uri_ids_init : UriTable :=
  (List.range CARLA_URI_MAP_ID_COUNT).foldl (fun acc _ => acc ++ [none]) []

/-- The search loop of `get_custom_uri_id`, started at index `i` on the entries from `i` on:
`for (int i=0; i < custom_uri_ids.count(); i++)
   if (custom_uri_ids[i] && strcmp(custom_uri_ids[i], uri) == 0) return i;` -/
def get_custom_uri_id_loop (uri : String) : List (Option String) → Nat → Option Nat
  | [], _ => none
  | none :: rest, i => get_custom_uri_id_loop uri rest (i + 1)
  | some s :: rest, i =>
    if s = uri then some i else get_custom_uri_id_loop uri rest (i + 1)

/-- `uint32_t Lv2Plugin::get_custom_uri_id(const char* uri)`: the returned id (the `int`
index converted to `uint32_t`) and the table after the call. -/
def get_custom_uri_id (t : UriTable) (uri : String) : Nat × UriTable :=
  match get_custom_uri_id_loop uri t 0 with
  | some i => (i % 2 ^ 32, t)
  | none =>
    let t' := t ++ [some uri]   -- custom_uri_ids.append(strdup(uri));
    ((t'.length - 1) % 2 ^ 32, t')   -- return custom_uri_ids.count()-1;

/-- Conversion of a `uint32_t` value to `int` (two's complement), as happens when an id
returned by `get_custom_uri_id` is handed to `get_custom_uri_string(int uri_id)`. -/
def int_of_uint32 (n : Nat) : Int :=
  if n % 2 ^ 32 < 2 ^ 31 then ((n % 2 ^ 32 : Nat) : Int) else ((n % 2 ^ 32 : Nat) : Int) - 2 ^ 32

/-- `const char* Lv2Plugin::get_custom_uri_string(int uri_id)`.
The outer `none` is `QList::at` called with a negative index (outside its contract);
`some none` is a `nullptr` result. -/
def get_custom_uri_string (t : UriTable) (uri_id : Int) : Option (Option String) :=
  if uri_id < (t.length : Int) then
    (if 0 ≤ uri_id then t[uri_id.toNat]? else none)   -- custom_uri_ids.at(uri_id)
  else
    some none

/-- Tables reachable from the constructor's table by calls of `get_custom_uri_id`. -/
inductive Reachable : UriTable → Prop
  | init : Reachable custom_uri_ids_init
  | step (t : UriTable) (u : String) : Reachable t → Reachable (get_custom_uri_id t u).2

/-! ## Data model of the plugin instance -/

/-- The type `LV2_Handle` (an address handed out by the plugin); `nullptr` is `none`. -/
abbrev LV2_Handle := Nat

/-- The record `LV2_Feature`: `const char* URI` and `void* data` (`none` is a null block). -/
structure LV2_Feature where
  URI : String
  data : Option Nat
  deriving DecidableEq, Repr

/-- The fields of `LV2_Descriptor` that `lv2.cpp` reads. `instantiate` is the function
pointer, applied to the sample rate, the bundle path and the feature array (its first
argument, the descriptor itself, is implicit). `deactivate` and `cleanup` say whether the
respective function pointer is non-null. -/
structure LV2_Descriptor where
  URI : String
  instantiate : Nat → String → List (Option LV2_Feature) → Option LV2_Handle
  deactivate : Bool
  cleanup : Bool

/-- The fields of `LV2_RDF_Descriptor` that `lv2.cpp` reads (`Type_` is the field `Type`). -/
structure LV2_RDF_Descriptor where
  Type_ : Nat
  URI : String
  Name : String
  Author : String
  License : String
  Binary : String
  Bundle : String
  UniqueID : Nat
  deriving DecidableEq, Repr

/-- Source: `struct CarlaLv2Event`, with the port and the buffer named by their addresses. -/
structure CarlaLv2Event where
  type : Nat
  port : Nat
  buffer : Nat
  deriving DecidableEq, Repr

/-- Source: `struct CarlaLv2EventData`. The array `events` and its length `count` are kept
as one list: `count` is `events.length`, and the empty list stands for `count = 0`. -/
structure CarlaLv2EventData where
  events : List CarlaLv2Event
  deriving DecidableEq, Repr

/-- The effects of `lv2.cpp` on its collaborators, in the order the program makes them. -/
inductive Event where
  | lib_open (filename : String)
  | lib_symbol (symbol : String)
  | descfn (index : Nat)
  | instantiate (uri : String) (sample_rate : Nat) (bundle_path : String)
      (features : List (Option LV2_Feature)) (result : Option LV2_Handle)
  | get_unique_name (name : String)
  | lv2_rdf_dup
  | carla_jack_register_plugin
  | set_last_error (msg : String)
  | free_uri (uri : String)
  | deactivate (handle : LV2_Handle)
  | cleanup (handle : LV2_Handle)
  | delete_feature_data (index : Nat)
  | delete_feature (index : Nat)
  | lv2_rdf_free
  | jack_port_unregister (port : Nat)
  | free_buffer (buffer : Nat)
  | delete_events_in
  | delete_events_out
  | reload
  | set_id (id : Int)
  deriving DecidableEq, Repr

/-- What the collaborators answer. `lib_symbol` gives the entry function of the opened
library (`none` when the symbol is missing); the entry function maps a `uint32_t` index to
a descriptor or `nullptr`. `get_sample_rate` is the JACK sample rate in Hz.
`m_active_before` is the value the base-class constructor `CarlaPlugin()` leaves in that
member. -/
structure Env where
  lib_open : String → Bool
  lib_error : String
  lib_symbol : String → Option (Nat → Option LV2_Descriptor)
  get_sample_rate : Nat
  get_unique_name : String → String
  carla_jack_register_plugin : Bool
  m_active_before : Bool

/-- The members of `class Lv2Plugin` (and of its base class) that `lv2.cpp` uses. The `ui`
member is only ever set to null and is left out. -/
structure Lv2Plugin where
  m_filename : Option String
  m_name : Option String
  m_active_before : Bool
  evin : CarlaLv2EventData
  evout : CarlaLv2EventData
  handle : Option LV2_Handle
  descriptor : Option LV2_Descriptor
  rdf_descriptor : Option LV2_RDF_Descriptor
  features : List (Option LV2_Feature)
  custom_uri_ids : UriTable

/-- The constructor `Lv2Plugin::Lv2Plugin()`. -/
def Lv2Plugin.ctor (m_active_before : Bool) : Lv2Plugin where
  m_filename := none
  m_name := none
  m_active_before := m_active_before
  evin := ⟨[]⟩
  evout := ⟨[]⟩
  handle := none
  descriptor := none
  rdf_descriptor := none
  -- for (uint32_t i=0; i < lv2_feature_count+1; i++) features[i] = nullptr;
  features := (List.range (lv2_feature_count + 1)).map (fun _ => none)
  custom_uri_ids := custom_uri_ids_init

/-- The entry `features[k]` of the feature array (`none` is `nullptr`). -/
def feature_at (features : List (Option LV2_Feature)) (k : Nat) : Option LV2_Feature :=
  (features[k]?).join

/-! ## `Lv2Plugin::init` -/

/-- The enumeration loop of `init`, from index `i` on, with `fuel` bounding the number of
iterations: `while ((descriptor = descfn(i++))) if (strcmp(descriptor->URI, URI) == 0) break;`
The result is the final value of `descriptor` and the indices `descfn` was called with;
`none` means the loop is still running when the fuel is spent. The counter is a
`uint32_t`. -/
def init_descriptor_loop (descfn : Nat → Option LV2_Descriptor) (URI : String) :
    Nat → Nat → Option (Option LV2_Descriptor × List Nat)
  | 0, _ => none
  | fuel + 1, i =>
    match descfn i with
    | none => some (none, [i])
    | some d =>
      if d.URI = URI then some (some d, [i])
      else
        match init_descriptor_loop descfn URI fuel ((i + 1) % 2 ^ 32) with
        | none => none
        | some (r, calls) => some (r, i :: calls)

/-- What a call of `init` leaves behind: the returned `bool`, the object, the effects. -/
structure InitResult where
  ret : Bool
  plugin : Lv2Plugin
  trace : List Event

/-- `bool Lv2Plugin::init(const char* filename, const char* URI, void* extra_stuff)`.
`none` means the enumeration loop did not finish within `fuel` iterations. -/
def Lv2Plugin.init (env : Env) (fuel : Nat) (self : Lv2Plugin) (filename URI : String)
    (extra_stuff : Option LV2_RDF_Descriptor) : Option InitResult :=
  match extra_stuff with
  | none =>
    some ⟨false, self,
      [Event.set_last_error "Failed to find the requested plugin in the LV2 Bundle"]⟩
  | some rdf_descriptor_ =>
    if env.lib_open rdf_descriptor_.Binary then
      match env.lib_symbol "lv2_descriptor" with
      | none =>
        some ⟨false, self,
          [Event.lib_open rdf_descriptor_.Binary, Event.lib_symbol "lv2_descriptor",
           Event.set_last_error "Could not find the LV2 Descriptor in the plugin library"]⟩
      | some descfn =>
        match init_descriptor_loop descfn URI fuel 0 with
        | none => none
        | some (descriptor, calls) =>
          let self1 := { self with descriptor := descriptor }
          let tr1 := [Event.lib_open rdf_descriptor_.Binary, Event.lib_symbol "lv2_descriptor"]
            ++ calls.map Event.descfn
          match descriptor with
          | none =>
            some ⟨false, self1, tr1 ++ [Event.set_last_error
              "Could not find the requested plugin URI in the plugin library"]⟩
          | some d =>
            let handle :=
              d.instantiate env.get_sample_rate rdf_descriptor_.Bundle self1.features
            let self2 := { self1 with handle := handle }
            let tr2 := tr1 ++ [Event.instantiate d.URI env.get_sample_rate
              rdf_descriptor_.Bundle self1.features handle]
            match handle with
            | none =>
              some ⟨false, self2, tr2 ++ [Event.set_last_error "Plugin failed to initialize"]⟩
            | some _ =>
              let self3 := { self2 with
                m_filename := some filename
                m_name := some (env.get_unique_name rdf_descriptor_.Name)
                rdf_descriptor := some rdf_descriptor_ }
              let tr3 := tr2 ++ [Event.get_unique_name rdf_descriptor_.Name, Event.lv2_rdf_dup,
                Event.carla_jack_register_plugin]
              if env.carla_jack_register_plugin then
                some ⟨true, self3, tr3⟩
              else
                some ⟨false, self3,
                  tr3 ++ [Event.set_last_error "Failed to register plugin in JACK"]⟩
    else
      some ⟨false, self,
        [Event.lib_open rdf_descriptor_.Binary, Event.set_last_error env.lib_error]⟩

/-! ## `Lv2Plugin::~Lv2Plugin` -/

/-- Source: `Lv2Plugin::lv2_remove_from_jack()`. -/
def Lv2Plugin.lv2_remove_from_jack (self : Lv2Plugin) : List Event :=
  self.evin.events.map (fun e => Event.jack_port_unregister e.port)
    ++ self.evout.events.map (fun e => Event.jack_port_unregister e.port)

/-- Source: `Lv2Plugin::lv2_delete_buffers()`; returns the object with both port arrays
reset, and the effects. -/
def Lv2Plugin.lv2_delete_buffers (self : Lv2Plugin) : Lv2Plugin × List Event :=
  let tin :=
    if self.evin.events.length > 0 then
      self.evin.events.map (fun e => Event.free_buffer e.buffer) ++ [Event.delete_events_in]
    else []
  let tout :=
    if self.evout.events.length > 0 then
      self.evout.events.map (fun e => Event.free_buffer e.buffer) ++ [Event.delete_events_out]
    else []
  ({ self with evin := ⟨[]⟩, evout := ⟨[]⟩ }, tin ++ tout)

/-- The statement
`if (features[k] && features[k]->data) delete (T*)features[k]->data;` of the destructor. -/
def delete_feature_data (features : List (Option LV2_Feature)) (k : Nat) : List Event :=
  match feature_at features k with
  | none => []
  | some f => if f.data.isSome then [Event.delete_feature_data k] else []

/-- The loop
`for (uint32_t j=0; j<lv2_feature_count && features[j]; j++) delete features[j];`
from index `j` on, `n` being the number of indices left below `lv2_feature_count`. -/
def delete_features_loop (features : List (Option LV2_Feature)) : Nat → Nat → List Event
  | 0, _ => []
  | n + 1, j =>
    match feature_at features j with
    | none => []
    | some _ => Event.delete_feature j :: delete_features_loop features n (j + 1)

/-- The two guarded plugin callbacks of the destructor:
`if (handle && descriptor->deactivate && m_active_before) descriptor->deactivate(handle);`
`if (handle && descriptor->cleanup) descriptor->cleanup(handle);`
`none` is the dereference of a null `descriptor` while `handle` is set. -/
def destructor_callbacks (self : Lv2Plugin) : Option (List Event) :=
  match self.handle with
  | none => some []
  | some h =>
    match self.descriptor with
    | none => none
    | some d =>
      some ((if d.deactivate && self.m_active_before then [Event.deactivate h] else [])
        ++ (if d.cleanup then [Event.cleanup h] else []))

/-- The destructor `Lv2Plugin::~Lv2Plugin()`: its effects in program order (`none` when it
dereferences a null `descriptor`). -/
def Lv2Plugin.destructor (self : Lv2Plugin) : Option (List Event) :=
  match destructor_callbacks self with
  | none => none
  | some callbacks =>
    some (
      -- for (...) if (custom_uri_ids[i]) free((void*)custom_uri_ids[i]);
      self.custom_uri_ids.filterMap (fun e => e.map Event.free_uri)
      ++ callbacks
      ++ delete_feature_data self.features lv2_feature_id_uri_map
      ++ delete_feature_data self.features lv2_feature_id_urid_map
      ++ delete_feature_data self.features lv2_feature_id_urid_unmap
      ++ delete_feature_data self.features lv2_feature_id_event
      ++ delete_features_loop self.features lv2_feature_count 0
      -- if (rdf_descriptor) lv2_rdf_free(rdf_descriptor);
      ++ (if self.rdf_descriptor.isSome then [Event.lv2_rdf_free] else [])
      ++ self.lv2_remove_from_jack
      ++ self.lv2_delete_buffers.2)

/-! ## `category` -/

/-- The enumeration `PluginCategory` of `carla_plugin.h`, with the values `category` uses. -/
inductive PluginCategory where
  | PLUGIN_CATEGORY_NONE
  | PLUGIN_CATEGORY_SYNTH
  | PLUGIN_CATEGORY_DELAY
  | PLUGIN_CATEGORY_EQ
  | PLUGIN_CATEGORY_FILTER
  | PLUGIN_CATEGORY_DYNAMICS
  | PLUGIN_CATEGORY_MODULATOR
  | PLUGIN_CATEGORY_UTILITY
  | PLUGIN_CATEGORY_OUTRO
  deriving DecidableEq, Repr

/-- The class constant and the class tests of the header `lv2_rdf.h`, which is not part of
the sources at hand; they are parameters of `category`. -/
structure Lv2RdfHeader where
  LV2_CLASS_REVERB : Nat
  LV2_IS_GENERATOR : Nat → Bool
  LV2_IS_UTILITY : Nat → Bool
  LV2_IS_SIMULATOR : Nat → Bool
  LV2_IS_DELAY : Nat → Bool
  LV2_IS_MODULATOR : Nat → Bool
  LV2_IS_FILTER : Nat → Bool
  LV2_IS_EQUALISER : Nat → Bool
  LV2_IS_SPECTRAL : Nat → Bool
  LV2_IS_DISTORTION : Nat → Bool
  LV2_IS_DYNAMICS : Nat → Bool

/-- `PluginCategory Lv2Plugin::category()`; `none` is the dereference of a null
`rdf_descriptor`. -/
def Lv2Plugin.category (hd : Lv2RdfHeader) (self : Lv2Plugin) : Option PluginCategory :=
  match self.rdf_descriptor with
  | none => none
  | some rdf =>
    let Category := rdf.Type_
    some (
      if Category &&& hd.LV2_CLASS_REVERB ≠ 0 then PluginCategory.PLUGIN_CATEGORY_DELAY
      else if hd.LV2_IS_GENERATOR Category then PluginCategory.PLUGIN_CATEGORY_SYNTH
      else if hd.LV2_IS_UTILITY Category then PluginCategory.PLUGIN_CATEGORY_UTILITY
      else if hd.LV2_IS_SIMULATOR Category then PluginCategory.PLUGIN_CATEGORY_OUTRO
      else if hd.LV2_IS_DELAY Category then PluginCategory.PLUGIN_CATEGORY_DELAY
      else if hd.LV2_IS_MODULATOR Category then PluginCategory.PLUGIN_CATEGORY_MODULATOR
      else if hd.LV2_IS_FILTER Category then PluginCategory.PLUGIN_CATEGORY_FILTER
      else if hd.LV2_IS_EQUALISER Category then PluginCategory.PLUGIN_CATEGORY_EQ
      else if hd.LV2_IS_SPECTRAL Category then PluginCategory.PLUGIN_CATEGORY_UTILITY
      else if hd.LV2_IS_DISTORTION Category then PluginCategory.PLUGIN_CATEGORY_OUTRO
      else if hd.LV2_IS_DYNAMICS Category then PluginCategory.PLUGIN_CATEGORY_DYNAMICS
      else PluginCategory.PLUGIN_CATEGORY_NONE)

/-! ## `add_plugin_lv2` -/

/-- The global arrays `CarlaPlugins` and `unique_names` (both of the registry's capacity). -/
structure Globals where
  CarlaPlugins : List (Option Lv2Plugin)
  unique_names : List (Option String)

/-- The scan of `get_new_plugin_id` from slot `i` on. -/
def get_new_plugin_id_loop : List (Option Lv2Plugin) → Nat → Int
  | [], _ => -1
  | none :: _, i => (i : Int)
  | some _ :: rest, i => get_new_plugin_id_loop rest (i + 1)

/-- Modelled from the spec: `get_new_plugin_id` is declared in `carla_plugin.h` and defined
outside `lv2.cpp`; the specification says of it "returns lowest free slot or `-1` if at
capacity". -/
def get_new_plugin_id (CarlaPlugins : List (Option Lv2Plugin)) : Int :=
  get_new_plugin_id_loop CarlaPlugins 0

/-- What a call of `add_plugin_lv2` leaves behind: the returned `short`, the two global
arrays, the effects. -/
structure AddResult where
  ret : Int
  globals : Globals
  trace : List Event

/-- `short add_plugin_lv2(const char* filename, const char* label, void* extra_stuff)`.
`reload` and `set_id` are base-class methods and are recorded as effects. `none` means that
`init` did not finish within `fuel` iterations (or that the destructor dereferenced a null
`descriptor`, which `init_destructor_defined` excludes). -/
def add_plugin_lv2 (env : Env) (fuel : Nat) (g : Globals) (filename label : String)
    (extra_stuff : Option LV2_RDF_Descriptor) : Option AddResult :=
  let id := get_new_plugin_id g.CarlaPlugins
  if id ≥ 0 then
    let plugin := Lv2Plugin.ctor env.m_active_before
    match plugin.init env fuel filename label extra_stuff with
    | none => none
    | some r =>
      if r.ret then
        some ⟨id,
          { CarlaPlugins := g.CarlaPlugins.set id.toNat (some r.plugin)
            unique_names := g.unique_names.set id.toNat r.plugin.m_name },
          r.trace ++ [Event.reload, Event.set_id id]⟩
      else
        match r.plugin.destructor with
        | none => none
        | some teardown => some ⟨-1, g, r.trace ++ teardown⟩
  else
    some ⟨id, g, [Event.set_last_error "Maximum number of plugins reached"]⟩

/-! ## Objects the program can bring about -/

/-- The entry function answers, at every index below `i`, a descriptor whose URI differs
from `URI`. -/
def NonMatchBelow (descfn : Nat → Option LV2_Descriptor) (URI : String) (i : Nat) : Prop :=
  ∀ j, j < i → ∃ d, descfn j = some d ∧ d.URI ≠ URI

/-- The enumeration comes to rest at index `i`: `descfn i` is null or has the URI. -/
def StopsAt (descfn : Nat → Option LV2_Descriptor) (URI : String) (i : Nat) : Prop :=
  descfn i = none ∨ ∃ d, descfn i = some d ∧ d.URI = URI

/-- Index `i` is the least one at which `descfn` answers the requested URI, all earlier
answers being non-null descriptors with a different URI; `d` is that answer. -/
def FirstMatch (descfn : Nat → Option LV2_Descriptor) (URI : String) (i : Nat)
    (d : LV2_Descriptor) : Prop :=
  i < 2 ^ 32 ∧ descfn i = some d ∧ d.URI = URI ∧ NonMatchBelow descfn URI i

/-- The entry function answers null at index `i` before any match. -/
def NullFirst (descfn : Nat → Option LV2_Descriptor) (URI : String) (i : Nat) : Prop :=
  i < 2 ^ 32 ∧ descfn i = none ∧ NonMatchBelow descfn URI i

/-- The messages handed to `set_last_error`, in call order. -/
def set_last_error_calls : List Event → List String
  | [] => []
  | Event.set_last_error msg :: rest => msg :: set_last_error_calls rest
  | _ :: rest => set_last_error_calls rest

/-- The plugin callbacks `deactivate` and `cleanup` in a trace, in call order. -/
def teardown_callbacks : List Event → List Event
  | [] => []
  | Event.deactivate h :: rest => Event.deactivate h :: teardown_callbacks rest
  | Event.cleanup h :: rest => Event.cleanup h :: teardown_callbacks rest
  | _ :: rest => teardown_callbacks rest

/-- The feature arrays handed to `instantiate` in a trace, in call order. -/
def instantiate_features : List Event → List (List (Option LV2_Feature))
  | [] => []
  | Event.instantiate _ _ _ features _ :: rest => features :: instantiate_features rest
  | _ :: rest => instantiate_features rest

/-- The effects of `init` up to the end of the enumeration that stops at index `i`. -/
def enumeration_trace (rdf : LV2_RDF_Descriptor) (i : Nat) : List Event :=
  [Event.lib_open rdf.Binary, Event.lib_symbol "lv2_descriptor"]
    ++ (List.range (i + 1)).map Event.descfn

/-- The call of `instantiate` that `init` makes on descriptor `d`, as an effect. -/
def instantiate_event (env : Env) (self : Lv2Plugin) (rdf : LV2_RDF_Descriptor)
    (d : LV2_Descriptor) : Event :=
  Event.instantiate d.URI env.get_sample_rate rdf.Bundle self.features
    (d.instantiate env.get_sample_rate rdf.Bundle self.features)

/-- The effects of `init` between a successful `instantiate` and the answer of JACK. -/
def registration_trace (rdf : LV2_RDF_Descriptor) : List Event :=
  [Event.get_unique_name rdf.Name, Event.lv2_rdf_dup, Event.carla_jack_register_plugin]

/-- The object as `init` leaves it once `instantiate` has answered the handle `hdl`. -/
def instantiated_plugin (env : Env) (self : Lv2Plugin) (filename : String)
    (rdf : LV2_RDF_Descriptor) (d : LV2_Descriptor) (hdl : LV2_Handle) : Lv2Plugin :=
  { self with
    descriptor := some d
    handle := some hdl
    m_filename := some filename
    m_name := some (env.get_unique_name rdf.Name)
    rdf_descriptor := some rdf }

/-- The position of an effect in the destructor's program order: freeing the interned
URI strings (0), `deactivate` (1), `cleanup` (2), deleting the feature data blocks (3),
deleting the feature records (4), freeing the RDF copy (5), unregistering the JACK ports
(6), freeing the event buffers and port arrays (7). Effects the destructor does not have
are given 0. -/
def teardown_phase : Event → Nat
  | Event.deactivate _ => 1
  | Event.cleanup _ => 2
  | Event.delete_feature_data _ => 3
  | Event.delete_feature _ => 4
  | Event.lv2_rdf_free => 5
  | Event.jack_port_unregister _ => 6
  | Event.free_buffer _ => 7
  | Event.delete_events_in => 7
  | Event.delete_events_out => 7
  | _ => 0

/-- A trace runs through the phases in the order given by `phase`. -/
def InPhaseOrder (phase : Event → Nat) (trace : List Event) : Prop :=
  trace.Pairwise (fun a b => phase a ≤ phase b)

/-- A trace in the destructor's phase order that has not gone beyond phase `k`. -/
def PhasedUpTo (k : Nat) (trace : List Event) : Prop :=
  InPhaseOrder teardown_phase trace ∧ ∀ e, e ∈ trace → teardown_phase e ≤ k

/-! ## Concrete inputs used to evaluate the definitions -/

/-- A header with one bit per class group, reverb being bit 10, for evaluating `category`. -/
def example_header : Lv2RdfHeader where
  LV2_CLASS_REVERB := 0x400
  LV2_IS_GENERATOR := fun x => decide (x &&& 0x7 ≠ 0)
  LV2_IS_UTILITY := fun x => decide (x &&& 0x78 ≠ 0)
  LV2_IS_SIMULATOR := fun x => decide (x &&& 0x480 ≠ 0)
  LV2_IS_DELAY := fun x => decide (x &&& 0x500 ≠ 0)
  LV2_IS_MODULATOR := fun x => decide (x &&& 0x200 ≠ 0)
  LV2_IS_FILTER := fun x => decide (x &&& 0x1800 ≠ 0)
  LV2_IS_EQUALISER := fun x => decide (x &&& 0x2000 ≠ 0)
  LV2_IS_SPECTRAL := fun x => decide (x &&& 0x4000 ≠ 0)
  LV2_IS_DISTORTION := fun x => decide (x &&& 0x8000 ≠ 0)
  LV2_IS_DYNAMICS := fun x => decide (x &&& 0x10000 ≠ 0)

/-- An RDF descriptor whose class flags are generator (bit 0) and reverb (bit 10). -/
def example_rdf : LV2_RDF_Descriptor where
  Type_ := 0x401
  URI := "urn:test:verb"
  Name := "Reverb"
  Author := "nobody"
  License := "GPL"
  Binary := "/lib/verb.so"
  Bundle := "/lib/verb.lv2/"
  UniqueID := 7

/-- A descriptor with the given URI whose `instantiate` answers `result` and which
supplies both `deactivate` and `cleanup`. -/
def example_descriptor (uri : String) (result : Option LV2_Handle) : LV2_Descriptor where
  URI := uri
  instantiate := fun _ _ _ => result
  deactivate := true
  cleanup := true

/-- An entry function of a library with three plugins, the requested one at index 1. -/
def example_descfn (result : Option LV2_Handle) : Nat → Option LV2_Descriptor
  | 0 => some (example_descriptor "urn:test:other" (some 11))
  | 1 => some (example_descriptor "urn:test:verb" result)
  | 2 => some (example_descriptor "urn:test:third" (some 33))
  | _ => none

/-- Collaborators for which every step of `init` succeeds, except as the arguments say:
`result` is what the plugin's `instantiate` answers, `jack` what the JACK registration
answers. -/
def example_env (result : Option LV2_Handle) (jack : Bool) : Env where
  lib_open := fun _ => true
  lib_error := "cannot open shared object file"
  lib_symbol := fun s => if s = "lv2_descriptor" then some (example_descfn result) else none
  get_sample_rate := 48000
  get_unique_name := fun n => n
  carla_jack_register_plugin := jack
  m_active_before := false

/-- What the specification says of the feature array passed to `instantiate`: non-null
records with a data block at the positions below `lv2_feature_count`, null at
`lv2_feature_count`. -/
def FeatureVectorAsSpecified (features : List (Option LV2_Feature)) : Prop :=
  (∀ k, k < lv2_feature_count → ∃ f, features[k]? = some (some f) ∧ f.data.isSome = true)
    ∧ features[lv2_feature_count]? = some none

/-- A filled-in object, as a host with event ports and feature records would hold it: a
live handle, `m_active_before` set, one interned URI, four feature records with their data
blocks, an RDF copy, one input and one output event port. It occupies a registry slot in
`example_globals`. -/
def example_live_plugin : Lv2Plugin where
  m_filename := some "/lib/verb.so"
  m_name := some "Reverb"
  m_active_before := true
  evin := ⟨[⟨2, 501, 601⟩]⟩
  evout := ⟨[⟨2, 502, 602⟩]⟩
  handle := some 1000
  descriptor := some (example_descriptor "urn:test:verb" (some 1000))
  rdf_descriptor := some example_rdf
  features := [some ⟨"http://lv2plug.in/ns/ext/uri-map", some 1⟩,
    some ⟨"http://lv2plug.in/ns/ext/urid#map", some 2⟩,
    some ⟨"http://lv2plug.in/ns/ext/urid#unmap", some 3⟩,
    some ⟨"http://lv2plug.in/ns/ext/event", some 4⟩, none]
  custom_uri_ids := [none, none, none, none, some "urn:a"]

/-- The run of `init` on a fresh object in which every step succeeds except the JACK
registration: what `init` returns and leaves behind. -/
def example_failed_init : InitResult where
  ret := false
  plugin := instantiated_plugin (example_env (some 1000) false) (Lv2Plugin.ctor false)
    "/lib/verb.so" example_rdf (example_descriptor "urn:test:verb" (some 1000)) 1000
  trace := enumeration_trace example_rdf 1
    ++ [instantiate_event (example_env (some 1000) false) (Lv2Plugin.ctor false) example_rdf
          (example_descriptor "urn:test:verb" (some 1000))]
    ++ registration_trace example_rdf
    ++ [Event.set_last_error "Failed to register plugin in JACK"]

/-- A registry of capacity three whose slot 0 is taken. -/
def example_globals : Globals where
  CarlaPlugins := [some example_live_plugin, none, none]
  unique_names := [some "Reverb", none, none]

/-! ## Lemmas -/

/-! ### Lemmas on the search loop -/

theorem loop_some_spec (uri : String) :
    ∀ (l : List (Option String)) (i k : Nat), get_custom_uri_id_loop uri l i = some k →
      i ≤ k ∧ k - i < l.length ∧ l[k - i]? = some (some uri) := by
  intro l
  induction l with
  | nil => intro i k h; simp [get_custom_uri_id_loop] at h
  | cons e rest ih =>
    intro i k h
    cases e with
    | none =>
      simp only [get_custom_uri_id_loop] at h
      obtain ⟨h1, h2, h3⟩ := ih (i + 1) k h
      have hk : k - i = (k - (i + 1)) + 1 := by omega
      refine ⟨by omega, by simp only [List.length_cons]; omega, ?_⟩
      rw [hk, List.getElem?_cons_succ]; exact h3
    | some s =>
      simp only [get_custom_uri_id_loop] at h
      by_cases hs : s = uri
      · simp only [hs, if_true, Option.some.injEq] at h
        subst h
        simp [hs]
      · simp only [hs, if_false] at h
        obtain ⟨h1, h2, h3⟩ := ih (i + 1) k h
        have hk : k - i = (k - (i + 1)) + 1 := by omega
        refine ⟨by omega, by simp only [List.length_cons]; omega, ?_⟩
        rw [hk, List.getElem?_cons_succ]; exact h3

theorem loop_none_spec (uri : String) :
    ∀ (l : List (Option String)) (i : Nat), get_custom_uri_id_loop uri l i = none →
      ∀ e ∈ l, e ≠ some uri := by
  intro l
  induction l with
  | nil => intro i _ e he; simp at he
  | cons e rest ih =>
    intro i h x hx
    cases e with
    | none =>
      simp only [get_custom_uri_id_loop] at h
      rcases List.mem_cons.1 hx with rfl | hx
      · simp
      · exact ih (i + 1) h x hx
    | some s =>
      simp only [get_custom_uri_id_loop] at h
      by_cases hs : s = uri
      · simp [hs] at h
      · simp only [hs, if_false] at h
        rcases List.mem_cons.1 hx with rfl | hx
        · simpa using hs
        · exact ih (i + 1) h x hx

theorem loop_append_new (uri : String) :
    ∀ (l : List (Option String)) (i : Nat), get_custom_uri_id_loop uri l i = none →
      get_custom_uri_id_loop uri (l ++ [some uri]) i = some (i + l.length) := by
  intro l
  induction l with
  | nil => intro i _; simp [get_custom_uri_id_loop]
  | cons e rest ih =>
    intro i h
    cases e with
    | none =>
      simp only [get_custom_uri_id_loop] at h
      simp only [List.cons_append, get_custom_uri_id_loop, List.length_cons]
      show get_custom_uri_id_loop uri (rest ++ [some uri]) (i + 1) = _
      rw [ih (i + 1) h]; congr 1; omega
    | some s =>
      simp only [get_custom_uri_id_loop] at h
      by_cases hs : s = uri
      · simp [hs] at h
      · simp only [hs, if_false] at h
        simp only [List.cons_append, get_custom_uri_id_loop, hs, if_false, List.length_cons]
        show get_custom_uri_id_loop uri (rest ++ [some uri]) (i + 1) = _
        rw [ih (i + 1) h]; congr 1; omega

/-- Every reachable table still has the constructor's four null entries in front. -/
theorem reachable_starts_null (t : UriTable) (h : Reachable t) :
    ∃ rest, t = none :: none :: none :: none :: rest := by
  induction h with
  | init => exact ⟨[], by decide⟩
  | step t u _ ih =>
    obtain ⟨rest, rfl⟩ := ih
    unfold get_custom_uri_id
    split
    · exact ⟨rest, rfl⟩
    · exact ⟨rest ++ [some u], rfl⟩

/-- On a table that starts with four null entries the search never answers below 4. -/
theorem loop_ge_four (uri : String) (rest : List (Option String)) (k : Nat)
    (h : get_custom_uri_id_loop uri (none :: none :: none :: none :: rest) 0 = some k) :
    4 ≤ k := by
  simp only [get_custom_uri_id_loop] at h
  exact (loop_some_spec uri rest 4 k h).1


theorem int_of_uint32_small (n : Nat) (h : n < 2 ^ 31) : int_of_uint32 n = (n : Int) := by
  have h1 : n % 2 ^ 32 = n := Nat.mod_eq_of_lt (by omega)
  unfold int_of_uint32
  rw [h1, if_pos h]

theorem get_custom_uri_string_at (t : UriTable) (k : Nat) (hk : k < t.length) :
    get_custom_uri_string t (k : Int) = t[k]? := by
  unfold get_custom_uri_string
  have h1 : (k : Int) < (t.length : Int) := by exact_mod_cast hk
  have h2 : (0 : Int) ≤ (k : Int) := Int.natCast_nonneg k
  rw [if_pos h1, if_pos h2, Int.toNat_natCast]

/-- Round trip and idempotence on any table whose size fits the `int` index range. -/
theorem round_trip_idempotent (t : UriTable) (u : String) (hlen : t.length + 1 < 2 ^ 31) :
    get_custom_uri_string (get_custom_uri_id t u).2 (int_of_uint32 (get_custom_uri_id t u).1)
        = some (some u)
      ∧ get_custom_uri_id (get_custom_uri_id t u).2 u = get_custom_uri_id t u := by
  cases hl : get_custom_uri_id_loop u t 0 with
  | some i =>
    have hres : get_custom_uri_id t u = (i % 2 ^ 32, t) := by
      unfold get_custom_uri_id; rw [hl]
    obtain ⟨_, h2, h3⟩ := loop_some_spec u t 0 i hl
    simp only [Nat.sub_zero] at h2 h3
    have hi : i % 2 ^ 32 = i := Nat.mod_eq_of_lt (by omega)
    rw [hres]
    refine ⟨?_, hres⟩
    show get_custom_uri_string t (int_of_uint32 (i % 2 ^ 32)) = some (some u)
    rw [hi, int_of_uint32_small i (by omega), get_custom_uri_string_at t i h2, h3]
  | none =>
    have hres : get_custom_uri_id t u = (t.length % 2 ^ 32, t ++ [some u]) := by
      unfold get_custom_uri_id; rw [hl]; simp
    have hi : t.length % 2 ^ 32 = t.length := Nat.mod_eq_of_lt (by omega)
    rw [hres]
    constructor
    · show get_custom_uri_string (t ++ [some u]) (int_of_uint32 (t.length % 2 ^ 32))
        = some (some u)
      rw [hi, int_of_uint32_small _ (by omega),
        get_custom_uri_string_at _ _ (by simp)]
      simp
    · show get_custom_uri_id (t ++ [some u]) u = _
      have h2 := loop_append_new u t 0 hl
      unfold get_custom_uri_id
      rw [h2]; simp

/-- On a reachable table the returned id is at least `CARLA_URI_MAP_ID_COUNT`. -/
theorem reachable_id_ge_count (t : UriTable) (u : String) (hr : Reachable t)
    (hlen : t.length + 1 < 2 ^ 31) : CARLA_URI_MAP_ID_COUNT ≤ (get_custom_uri_id t u).1 := by
  obtain ⟨rest, rfl⟩ := reachable_starts_null t hr
  cases hl : get_custom_uri_id_loop u (none :: none :: none :: none :: rest) 0 with
  | some i =>
    have hres : get_custom_uri_id (none :: none :: none :: none :: rest) u
        = (i % 2 ^ 32, none :: none :: none :: none :: rest) := by
      unfold get_custom_uri_id; rw [hl]
    obtain ⟨_, h2, _⟩ := loop_some_spec u _ 0 i hl
    have h4 := loop_ge_four u rest i hl
    have hi : i % 2 ^ 32 = i := Nat.mod_eq_of_lt (by omega)
    rw [hres]
    show CARLA_URI_MAP_ID_COUNT ≤ i % 2 ^ 32
    rw [hi]; exact h4
  | none =>
    have hres : get_custom_uri_id (none :: none :: none :: none :: rest) u
        = ((none :: none :: none :: none :: rest).length % 2 ^ 32,
            (none :: none :: none :: none :: rest) ++ [some u]) := by
      unfold get_custom_uri_id; rw [hl]; simp
    have hi : (none :: none :: none :: none :: rest : UriTable).length % 2 ^ 32
        = (none :: none :: none :: none :: rest : UriTable).length :=
      Nat.mod_eq_of_lt (by omega)
    rw [hres]
    show CARLA_URI_MAP_ID_COUNT ≤ (none :: none :: none :: none :: rest : UriTable).length % 2 ^ 32
    rw [hi]
    simp [CARLA_URI_MAP_ID_COUNT]

/-! ### Lemmas on the enumeration loop of `init` -/

theorem loop_stop (descfn : Nat → Option LV2_Descriptor) (URI : String) (fuel i : Nat)
    (h : StopsAt descfn URI i) :
    init_descriptor_loop descfn URI (fuel + 1) i = some (descfn i, [i]) := by
  rcases h with h | ⟨d, hd, hu⟩
  · simp [init_descriptor_loop, h]
  · simp [init_descriptor_loop, hd, hu]

theorem loop_skip (descfn : Nat → Option LV2_Descriptor) (URI : String) :
    ∀ (n fuel start : Nat), start + n < 2 ^ 32 →
      (∀ j, start ≤ j → j < start + n → ∃ d, descfn j = some d ∧ d.URI ≠ URI) →
      init_descriptor_loop descfn URI (fuel + n) start
        = (init_descriptor_loop descfn URI fuel (start + n)).map
            (fun rc => (rc.1, List.range' start n ++ rc.2)) := by
  intro n
  induction n with
  | zero =>
    intro fuel start _ _
    cases init_descriptor_loop descfn URI fuel start <;> simp
  | succ n ih =>
    intro fuel start hb hnm
    obtain ⟨d, hd, hu⟩ := hnm start (le_refl _) (by omega)
    have hmod : (start + 1) % 2 ^ 32 = start + 1 := Nat.mod_eq_of_lt (by omega)
    have hstep : init_descriptor_loop descfn URI (fuel + (n + 1)) start
        = (init_descriptor_loop descfn URI (fuel + n) (start + 1)).map
            (fun rc => (rc.1, start :: rc.2)) := by
      show init_descriptor_loop descfn URI ((fuel + n) + 1) start = _
      simp only [init_descriptor_loop, hd, hu, if_false, hmod]
      cases init_descriptor_loop descfn URI (fuel + n) (start + 1) <;> rfl
    rw [hstep, ih fuel (start + 1) (by omega) (fun j h1 h2 => hnm j (by omega) (by omega))]
    have e : start + 1 + n = start + (n + 1) := by omega
    rw [e]
    cases init_descriptor_loop descfn URI fuel (start + (n + 1)) <;>
      simp [List.range'_succ]

/-- With more than `i` units of fuel the loop stops at the first index `i` where `descfn`
is null or has the URI, having called `descfn` at `0, …, i`. -/
theorem loop_first_stop (descfn : Nat → Option LV2_Descriptor) (URI : String) (i fuel : Nat)
    (hi : i < 2 ^ 32) (hnm : NonMatchBelow descfn URI i) (hs : StopsAt descfn URI i)
    (hf : i < fuel) :
    init_descriptor_loop descfn URI fuel 0 = some (descfn i, List.range (i + 1)) := by
  obtain ⟨k, rfl⟩ : ∃ k, fuel = (k + 1) + i := ⟨fuel - i - 1, by omega⟩
  rw [loop_skip descfn URI i (k + 1) 0 (by omega) (fun j _ h2 => hnm j (by omega))]
  simp only [Nat.zero_add]
  rw [loop_stop descfn URI k i hs]
  simp [List.range_succ, List.range_eq_range']

theorem loop_out_of_fuel (descfn : Nat → Option LV2_Descriptor) (URI : String) (i fuel : Nat)
    (hi : i < 2 ^ 32) (hnm : NonMatchBelow descfn URI i) (hf : fuel ≤ i) :
    init_descriptor_loop descfn URI fuel 0 = none := by
  have h := loop_skip descfn URI fuel 0 0 (by omega) (fun j _ h2 => hnm j (by omega))
  simp only [Nat.zero_add] at h
  rw [h]
  simp [init_descriptor_loop]

theorem loop_never_stops (descfn : Nat → Option LV2_Descriptor) (URI : String)
    (hall : ∀ j, j < 2 ^ 32 → ¬ StopsAt descfn URI j) :
    ∀ (fuel start : Nat), start < 2 ^ 32 →
      init_descriptor_loop descfn URI fuel start = none := by
  intro fuel
  induction fuel with
  | zero => intro start _; rfl
  | succ fuel ih =>
    intro start hs
    have hns := hall start hs
    cases hd : descfn start with
    | none => exact absurd (Or.inl hd) hns
    | some d =>
      have hu : ¬ d.URI = URI := fun hu => hns (Or.inr ⟨d, hd, hu⟩)
      simp only [init_descriptor_loop, hd, hu, if_false]
      rw [ih ((start + 1) % 2 ^ 32) (Nat.mod_lt _ (by norm_num))]

theorem not_stops_nonmatch (descfn : Nat → Option LV2_Descriptor) (URI : String) (j : Nat)
    (h : ¬ StopsAt descfn URI j) : ∃ d, descfn j = some d ∧ d.URI ≠ URI := by
  cases hd : descfn j with
  | none => exact absurd (Or.inl hd) h
  | some d => exact ⟨d, rfl, fun hu => h (Or.inr ⟨d, hd, hu⟩)⟩

theorem nonmatch_not_stops (descfn : Nat → Option LV2_Descriptor) (URI : String) (i j : Nat)
    (hnm : NonMatchBelow descfn URI i) (hj : j < i) : ¬ StopsAt descfn URI j := by
  obtain ⟨d, hd, hu⟩ := hnm j hj
  rintro (h | ⟨d', hd', hu'⟩)
  · rw [hd] at h; cases h
  · rw [hd] at hd'; cases hd'; exact hu hu'

/-- The first stopping index is unique. -/
theorem first_stop_unique (descfn : Nat → Option LV2_Descriptor) (URI : String) (i j : Nat)
    (hi : NonMatchBelow descfn URI i) (si : StopsAt descfn URI i)
    (hj : NonMatchBelow descfn URI j) (sj : StopsAt descfn URI j) : i = j := by
  rcases Nat.lt_trichotomy i j with h | h | h
  · exact absurd si (nonmatch_not_stops descfn URI j i hj h)
  · exact h
  · exact absurd sj (nonmatch_not_stops descfn URI i j hi h)

/-- If the loop finishes, it finished at the first stopping index. -/
theorem loop_some_inv (descfn : Nat → Option LV2_Descriptor) (URI : String) (fuel : Nat)
    (r : Option LV2_Descriptor) (calls : List Nat)
    (h : init_descriptor_loop descfn URI fuel 0 = some (r, calls)) :
    ∃ i, i < 2 ^ 32 ∧ i < fuel ∧ NonMatchBelow descfn URI i ∧ StopsAt descfn URI i
      ∧ r = descfn i ∧ calls = List.range (i + 1) := by
  classical
  by_cases hex : ∃ j, j < 2 ^ 32 ∧ StopsAt descfn URI j
  · let i := Nat.find hex
    have hi : i < 2 ^ 32 ∧ StopsAt descfn URI i := Nat.find_spec hex
    have hnm : NonMatchBelow descfn URI i := by
      intro j hj
      have hmin := Nat.find_min hex hj
      exact not_stops_nonmatch descfn URI j (fun hs => hmin ⟨by omega, hs⟩)
    by_cases hf : i < fuel
    · have h2 := loop_first_stop descfn URI i fuel hi.1 hnm hi.2 hf
      rw [h2] at h
      simp only [Option.some.injEq, Prod.mk.injEq] at h
      exact ⟨i, hi.1, hf, hnm, hi.2, h.1.symm, h.2.symm⟩
    · rw [loop_out_of_fuel descfn URI i fuel hi.1 hnm (by omega)] at h
      cases h
  · have hall : ∀ j, j < 2 ^ 32 → ¬ StopsAt descfn URI j := fun j hj hs => hex ⟨j, hj, hs⟩
    rw [loop_never_stops descfn URI hall fuel 0 (by norm_num)] at h
    cases h

/-! ### Lemmas on traces -/

theorem instantiate_features_descfn (l : List Nat) (tl : List Event) :
    instantiate_features (l.map Event.descfn ++ tl) = instantiate_features tl := by
  induction l with
  | nil => rfl
  | cons a l ih => simpa [instantiate_features] using ih

theorem set_last_error_calls_descfn (l : List Nat) (tl : List Event) :
    set_last_error_calls (l.map Event.descfn ++ tl) = set_last_error_calls tl := by
  induction l with
  | nil => rfl
  | cons a l ih => simpa [set_last_error_calls] using ih

theorem teardown_callbacks_descfn (l : List Nat) (tl : List Event) :
    teardown_callbacks (l.map Event.descfn ++ tl) = teardown_callbacks tl := by
  induction l with
  | nil => rfl
  | cons a l ih => simpa [teardown_callbacks] using ih

/-- Only the object's own `features` member is ever handed to `instantiate`. -/
theorem init_instantiate_features (env : Env) (fuel : Nat) (self : Lv2Plugin)
    (filename URI : String) (extra : Option LV2_RDF_Descriptor) (r : InitResult)
    (h : self.init env fuel filename URI extra = some r) :
    ∀ fs, fs ∈ instantiate_features r.trace → fs = self.features := by
  unfold Lv2Plugin.init at h
  cases extra with
  | none =>
    simp only [Option.some.injEq] at h
    subst h
    intro fs hfs
    simp [instantiate_features] at hfs
  | some rdf =>
    simp only at h
    cases hopen : env.lib_open rdf.Binary with
    | false =>
      simp only [hopen, Bool.false_eq_true, if_false, Option.some.injEq] at h
      subst h
      intro fs hfs
      simp [instantiate_features] at hfs
    | true =>
      simp only [hopen, if_true] at h
      cases hsym : env.lib_symbol "lv2_descriptor" with
      | none =>
        simp only [hsym, Option.some.injEq] at h
        subst h
        intro fs hfs
        simp [instantiate_features] at hfs
      | some descfn =>
        simp only [hsym] at h
        cases hloop : init_descriptor_loop descfn URI fuel 0 with
        | none => simp [hloop] at h
        | some rc =>
          obtain ⟨desc, calls⟩ := rc
          simp only [hloop] at h
          cases desc with
          | none =>
            simp only [Option.some.injEq] at h
            subst h
            intro fs hfs
            simp [instantiate_features, instantiate_features_descfn] at hfs
          | some d =>
            simp only at h
            cases hh : d.instantiate env.get_sample_rate rdf.Bundle self.features with
            | none =>
              simp only [hh, Option.some.injEq] at h
              subst h
              intro fs hfs
              simp [instantiate_features, instantiate_features_descfn] at hfs
              exact hfs
            | some hdl =>
              simp only [hh] at h
              cases hj : env.carla_jack_register_plugin with
              | true =>
                simp only [hj, if_true, Option.some.injEq] at h
                subst h
                intro fs hfs
                simp [instantiate_features, instantiate_features_descfn] at hfs
                exact hfs
              | false =>
                simp only [hj, Bool.false_eq_true, if_false, Option.some.injEq] at h
                subst h
                intro fs hfs
                simp [instantiate_features, instantiate_features_descfn] at hfs
                exact hfs

/-! ### The outcomes of `init` -/

/-- Every finished call of `init` is one of seven runs: one per failing step, in the
order of the steps, and the successful one. -/
theorem init_cases (env : Env) (fuel : Nat) (self : Lv2Plugin) (filename URI : String)
    (extra : Option LV2_RDF_Descriptor) (r : InitResult)
    (h : self.init env fuel filename URI extra = some r) :
    (extra = none ∧ r = ⟨false, self,
        [Event.set_last_error "Failed to find the requested plugin in the LV2 Bundle"]⟩)
    ∨ (∃ rdf, extra = some rdf ∧ env.lib_open rdf.Binary = false
        ∧ r = ⟨false, self, [Event.lib_open rdf.Binary, Event.set_last_error env.lib_error]⟩)
    ∨ (∃ rdf, extra = some rdf ∧ env.lib_open rdf.Binary = true
        ∧ env.lib_symbol "lv2_descriptor" = none
        ∧ r = ⟨false, self,
            [Event.lib_open rdf.Binary, Event.lib_symbol "lv2_descriptor",
             Event.set_last_error "Could not find the LV2 Descriptor in the plugin library"]⟩)
    ∨ (∃ rdf descfn i, extra = some rdf ∧ env.lib_open rdf.Binary = true
        ∧ env.lib_symbol "lv2_descriptor" = some descfn
        ∧ NullFirst descfn URI i ∧ i < fuel
        ∧ r = ⟨false, { self with descriptor := none },
            enumeration_trace rdf i ++ [Event.set_last_error
              "Could not find the requested plugin URI in the plugin library"]⟩)
    ∨ (∃ rdf descfn i d, extra = some rdf ∧ env.lib_open rdf.Binary = true
        ∧ env.lib_symbol "lv2_descriptor" = some descfn
        ∧ FirstMatch descfn URI i d ∧ i < fuel
        ∧ d.instantiate env.get_sample_rate rdf.Bundle self.features = none
        ∧ r = ⟨false, { self with descriptor := some d, handle := none },
            enumeration_trace rdf i ++ [instantiate_event env self rdf d,
              Event.set_last_error "Plugin failed to initialize"]⟩)
    ∨ (∃ rdf descfn i d hdl, extra = some rdf ∧ env.lib_open rdf.Binary = true
        ∧ env.lib_symbol "lv2_descriptor" = some descfn
        ∧ FirstMatch descfn URI i d ∧ i < fuel
        ∧ d.instantiate env.get_sample_rate rdf.Bundle self.features = some hdl
        ∧ env.carla_jack_register_plugin = false
        ∧ r = ⟨false, instantiated_plugin env self filename rdf d hdl,
            enumeration_trace rdf i ++ [instantiate_event env self rdf d]
              ++ registration_trace rdf
              ++ [Event.set_last_error "Failed to register plugin in JACK"]⟩)
    ∨ (∃ rdf descfn i d hdl, extra = some rdf ∧ env.lib_open rdf.Binary = true
        ∧ env.lib_symbol "lv2_descriptor" = some descfn
        ∧ FirstMatch descfn URI i d ∧ i < fuel
        ∧ d.instantiate env.get_sample_rate rdf.Bundle self.features = some hdl
        ∧ env.carla_jack_register_plugin = true
        ∧ r = ⟨true, instantiated_plugin env self filename rdf d hdl,
            enumeration_trace rdf i ++ [instantiate_event env self rdf d]
              ++ registration_trace rdf⟩) := by
  unfold Lv2Plugin.init at h
  cases extra with
  | none =>
    simp only [Option.some.injEq] at h
    exact Or.inl ⟨rfl, h.symm⟩
  | some rdf =>
    simp only at h
    cases hopen : env.lib_open rdf.Binary with
    | false =>
      simp only [hopen, Bool.false_eq_true, if_false, Option.some.injEq] at h
      exact Or.inr (Or.inl ⟨rdf, rfl, hopen, h.symm⟩)
    | true =>
      simp only [hopen, if_true] at h
      cases hsym : env.lib_symbol "lv2_descriptor" with
      | none =>
        simp only [hsym, Option.some.injEq] at h
        exact Or.inr (Or.inr (Or.inl ⟨rdf, rfl, hopen, rfl, h.symm⟩))
      | some descfn =>
        simp only [hsym] at h
        cases hloop : init_descriptor_loop descfn URI fuel 0 with
        | none => simp [hloop] at h
        | some rc =>
          obtain ⟨desc, calls⟩ := rc
          simp only [hloop] at h
          obtain ⟨i, hi, hif, hnm, hst, hdesc, hcalls⟩ :=
            loop_some_inv descfn URI fuel desc calls hloop
          subst hcalls
          cases desc with
          | none =>
            simp only [Option.some.injEq] at h
            exact Or.inr (Or.inr (Or.inr (Or.inl
              ⟨rdf, descfn, i, rfl, hopen, rfl, ⟨hi, hdesc.symm, hnm⟩, hif, h.symm⟩)))
          | some d =>
            have hfm : FirstMatch descfn URI i d := by
              rcases hst with hn | ⟨d', hd', hu'⟩
              · rw [hn] at hdesc; cases hdesc
              · rw [hd'] at hdesc
                cases hdesc
                exact ⟨hi, hd', hu', hnm⟩
            simp only at h
            cases hh : d.instantiate env.get_sample_rate rdf.Bundle self.features with
            | none =>
              simp only [hh, Option.some.injEq] at h
              refine Or.inr (Or.inr (Or.inr (Or.inr (Or.inl
                ⟨rdf, descfn, i, d, rfl, hopen, rfl, hfm, hif, hh, ?_⟩))))
              rw [← h]
              simp [enumeration_trace, instantiate_event, hh]
            | some hdl =>
              simp only [hh] at h
              cases hj : env.carla_jack_register_plugin with
              | false =>
                simp only [hj, Bool.false_eq_true, if_false, Option.some.injEq] at h
                refine Or.inr (Or.inr (Or.inr (Or.inr (Or.inr (Or.inl
                  ⟨rdf, descfn, i, d, hdl, rfl, hopen, rfl, hfm, hif, hh, rfl, ?_⟩)))))
                rw [← h]
                simp [enumeration_trace, instantiate_event, registration_trace,
                  instantiated_plugin, hh]
              | true =>
                simp only [hj, if_true, Option.some.injEq] at h
                refine Or.inr (Or.inr (Or.inr (Or.inr (Or.inr (Or.inr
                  ⟨rdf, descfn, i, d, hdl, rfl, hopen, rfl, hfm, hif, hh, rfl, ?_⟩)))))
                rw [← h]
                simp [enumeration_trace, instantiate_event, registration_trace,
                  instantiated_plugin, hh]

/-- The call of `init` returns as soon as the enumeration, where it is reached, comes to
rest at an index below the fuel. -/
theorem init_returns (env : Env) (fuel : Nat) (self : Lv2Plugin) (filename URI : String)
    (extra : Option LV2_RDF_Descriptor)
    (hstop : ∀ rdf descfn, extra = some rdf → env.lib_open rdf.Binary = true →
      env.lib_symbol "lv2_descriptor" = some descfn →
      ∃ i, i < fuel ∧ i < 2 ^ 32 ∧ NonMatchBelow descfn URI i ∧ StopsAt descfn URI i) :
    ∃ r, self.init env fuel filename URI extra = some r := by
  unfold Lv2Plugin.init
  cases extra with
  | none => exact ⟨_, rfl⟩
  | some rdf =>
    simp only
    cases hopen : env.lib_open rdf.Binary with
    | false =>
      simp only [Bool.false_eq_true, if_false]
      exact ⟨_, rfl⟩
    | true =>
      simp only [if_true]
      cases hsym : env.lib_symbol "lv2_descriptor" with
      | none => exact ⟨_, rfl⟩
      | some descfn =>
        obtain ⟨i, hif, hi, hnm, hst⟩ := hstop rdf descfn rfl hopen hsym
        simp only [loop_first_stop descfn URI i fuel hi hnm hst hif]
        cases descfn i with
        | none => exact ⟨_, rfl⟩
        | some d =>
          simp only
          cases d.instantiate env.get_sample_rate rdf.Bundle self.features with
          | none => exact ⟨_, rfl⟩
          | some hdl =>
            simp only
            cases env.carla_jack_register_plugin with
            | false =>
              simp only [Bool.false_eq_true, if_false]
              exact ⟨_, rfl⟩
            | true =>
              simp only [if_true]
              exact ⟨_, rfl⟩

theorem first_match_unique (descfn : Nat → Option LV2_Descriptor) (URI : String)
    (i j : Nat) (d e : LV2_Descriptor) (h1 : FirstMatch descfn URI i d)
    (h2 : FirstMatch descfn URI j e) : i = j ∧ d = e := by
  obtain ⟨_, hd, hu, hnm⟩ := h1
  obtain ⟨_, he, hv, hnm'⟩ := h2
  have hij := first_stop_unique descfn URI i j hnm (Or.inr ⟨d, hd, hu⟩) hnm'
    (Or.inr ⟨e, he, hv⟩)
  subst hij
  rw [hd] at he
  exact ⟨rfl, Option.some.inj he⟩

theorem null_first_not_match (descfn : Nat → Option LV2_Descriptor) (URI : String)
    (i j : Nat) (d : LV2_Descriptor) (h1 : NullFirst descfn URI i)
    (h2 : FirstMatch descfn URI j d) : False := by
  obtain ⟨_, hn, hnm⟩ := h1
  obtain ⟨_, hd, hu, hnm'⟩ := h2
  have hij := first_stop_unique descfn URI i j hnm (Or.inl hn) hnm' (Or.inr ⟨d, hd, hu⟩)
  subst hij
  rw [hn] at hd
  cases hd

theorem set_last_error_calls_enumeration (rdf : LV2_RDF_Descriptor) (i : Nat)
    (tl : List Event) :
    set_last_error_calls (enumeration_trace rdf i ++ tl) = set_last_error_calls tl := by
  show set_last_error_calls (Event.lib_open _ :: Event.lib_symbol _ ::
    ((List.range (i + 1)).map Event.descfn ++ tl)) = _
  simp only [set_last_error_calls]
  exact set_last_error_calls_descfn _ _

theorem teardown_callbacks_enumeration (rdf : LV2_RDF_Descriptor) (i : Nat)
    (tl : List Event) :
    teardown_callbacks (enumeration_trace rdf i ++ tl) = teardown_callbacks tl := by
  show teardown_callbacks (Event.lib_open _ :: Event.lib_symbol _ ::
    ((List.range (i + 1)).map Event.descfn ++ tl)) = _
  simp only [teardown_callbacks]
  exact teardown_callbacks_descfn _ _

/-! ### Lemmas on the destructor -/

theorem phased_append (k k' : Nat) (l1 l2 : List Event) (h1 : PhasedUpTo k l1)
    (h2 : ∀ e, e ∈ l2 → teardown_phase e = k') (hk : k ≤ k') :
    PhasedUpTo k' (l1 ++ l2) := by
  refine ⟨?_, ?_⟩
  · unfold InPhaseOrder
    rw [List.pairwise_append]
    refine ⟨h1.1, ?_, ?_⟩
    · rw [List.pairwise_iff_forall_sublist]
      intro a b hab
      have ha : a ∈ l2 := hab.subset (by simp)
      have hb : b ∈ l2 := hab.subset (by simp)
      rw [h2 a ha, h2 b hb]
    · intro a ha b hb
      rw [h2 b hb]
      exact le_trans (h1.2 a ha) hk
  · intro e he
    rcases List.mem_append.1 he with he | he
    · exact le_trans (h1.2 e he) hk
    · exact le_of_eq (h2 e he)

theorem phase_free_uri (t : UriTable) :
    ∀ e, e ∈ t.filterMap (fun e => e.map Event.free_uri) → teardown_phase e = 0 := by
  intro e he
  obtain ⟨x, _, hx⟩ := List.mem_filterMap.1 he
  cases x with
  | none => simp at hx
  | some u =>
    simp only [Option.map_some', Option.some.injEq] at hx
    subst hx
    rfl

theorem phase_callbacks (self : Lv2Plugin) (cb : List Event)
    (h : destructor_callbacks self = some cb) : PhasedUpTo 2 ([] ++ cb) := by
  unfold destructor_callbacks at h
  cases hh : self.handle with
  | none =>
    simp only [hh, Option.some.injEq] at h
    subst h
    exact ⟨List.Pairwise.nil, by simp⟩
  | some hdl =>
    simp only [hh] at h
    cases hd : self.descriptor with
    | none => simp [hd] at h
    | some d =>
      simp only [hd, Option.some.injEq] at h
      subst h
      cases d.deactivate <;> cases self.m_active_before <;> cases d.cleanup <;>
        simp [PhasedUpTo, InPhaseOrder, teardown_phase]

theorem phase_delete_feature_data (features : List (Option LV2_Feature)) (k : Nat) :
    ∀ e, e ∈ delete_feature_data features k → teardown_phase e = 3 := by
  intro e he
  unfold delete_feature_data at he
  cases hf : feature_at features k with
  | none => simp [hf] at he
  | some f =>
    simp only [hf] at he
    cases hdata : f.data.isSome with
    | false => simp [hdata] at he
    | true =>
      simp only [hdata, if_true, List.mem_singleton] at he
      subst he
      rfl

theorem phase_delete_features_loop (features : List (Option LV2_Feature)) :
    ∀ (n j : Nat) (e : Event), e ∈ delete_features_loop features n j →
      teardown_phase e = 4 := by
  intro n
  induction n with
  | zero => intro j e he; simp [delete_features_loop] at he
  | succ n ih =>
    intro j e he
    unfold delete_features_loop at he
    cases hf : feature_at features j with
    | none => simp [hf] at he
    | some f =>
      simp only [hf, List.mem_cons] at he
      rcases he with rfl | he
      · rfl
      · exact ih (j + 1) e he

theorem phase_rdf_free (self : Lv2Plugin) :
    ∀ e, e ∈ (if self.rdf_descriptor.isSome then [Event.lv2_rdf_free] else []) →
      teardown_phase e = 5 := by
  intro e he
  cases hr : self.rdf_descriptor.isSome with
  | false => simp [hr] at he
  | true =>
    simp only [hr, if_true, List.mem_singleton] at he
    subst he
    rfl

theorem phase_remove_from_jack (self : Lv2Plugin) :
    ∀ e, e ∈ self.lv2_remove_from_jack → teardown_phase e = 6 := by
  intro e he
  unfold Lv2Plugin.lv2_remove_from_jack at he
  simp only [List.mem_append, List.mem_map] at he
  rcases he with ⟨x, _, rfl⟩ | ⟨x, _, rfl⟩ <;> rfl

theorem phase_delete_buffers (self : Lv2Plugin) :
    ∀ e, e ∈ self.lv2_delete_buffers.2 → teardown_phase e = 7 := by
  intro e he
  unfold Lv2Plugin.lv2_delete_buffers at he
  simp only [List.mem_append] at he
  rcases he with he | he
  · split at he
    · simp only [List.mem_append, List.mem_map, List.mem_singleton] at he
      rcases he with ⟨x, _, rfl⟩ | rfl <;> rfl
    · simp at he
  · split at he
    · simp only [List.mem_append, List.mem_map, List.mem_singleton] at he
      rcases he with ⟨x, _, rfl⟩ | rfl <;> rfl
    · simp at he

/-- The destructor's trace is the callbacks followed by the remaining phases, in order. -/
theorem destructor_phased (self : Lv2Plugin) (tr : List Event)
    (h : self.destructor = some tr) : PhasedUpTo 7 tr := by
  unfold Lv2Plugin.destructor at h
  cases hcb : destructor_callbacks self with
  | none => simp [hcb] at h
  | some cb =>
    simp only [hcb, Option.some.injEq] at h
    subst h
    have h0 : PhasedUpTo 0 (self.custom_uri_ids.filterMap (fun e => e.map Event.free_uri)) :=
      phased_append 0 0 [] _ ⟨List.Pairwise.nil, by simp⟩ (phase_free_uri _) (le_refl _)
    have hc := phase_callbacks self cb hcb
    simp only [List.nil_append] at hc
    have h2 : PhasedUpTo 2
        (self.custom_uri_ids.filterMap (fun e => e.map Event.free_uri) ++ cb) := by
      refine ⟨?_, ?_⟩
      · unfold InPhaseOrder
        rw [List.pairwise_append]
        refine ⟨h0.1, hc.1, ?_⟩
        intro a ha b _
        have := h0.2 a ha
        omega
      · intro e he
        rcases List.mem_append.1 he with he | he
        · have := h0.2 e he
          omega
        · exact hc.2 e he
    have h3 := phased_append 2 3 _ _ h2
      (phase_delete_feature_data self.features lv2_feature_id_uri_map) (by omega)
    have h4 := phased_append 3 3 _ _ h3
      (phase_delete_feature_data self.features lv2_feature_id_urid_map) (by omega)
    have h5 := phased_append 3 3 _ _ h4
      (phase_delete_feature_data self.features lv2_feature_id_urid_unmap) (by omega)
    have h6 := phased_append 3 3 _ _ h5
      (phase_delete_feature_data self.features lv2_feature_id_event) (by omega)
    have h7 := phased_append 3 4 _ _ h6
      (phase_delete_features_loop self.features lv2_feature_count 0) (by omega)
    have h8 := phased_append 4 5 _ _ h7 (phase_rdf_free self) (by omega)
    have h9 := phased_append 5 6 _ _ h8 (phase_remove_from_jack self) (by omega)
    exact phased_append 6 7 _ _ h9 (phase_delete_buffers self) (by omega)

theorem teardown_callbacks_append (l1 l2 : List Event) :
    teardown_callbacks (l1 ++ l2) = teardown_callbacks l1 ++ teardown_callbacks l2 := by
  induction l1 with
  | nil => rfl
  | cons a l ih => cases a <;> simp [teardown_callbacks, ih]

theorem teardown_callbacks_nil_of_phase (l : List Event) (k : Nat)
    (h : ∀ e, e ∈ l → teardown_phase e = k) (h1 : k ≠ 1) (h2 : k ≠ 2) :
    teardown_callbacks l = [] := by
  induction l with
  | nil => rfl
  | cons a l ih =>
    have ha := h a (by simp)
    have hl := ih (fun e he => h e (by simp [he]))
    cases a <;> simp_all [teardown_callbacks, teardown_phase]

theorem teardown_callbacks_of_callbacks (self : Lv2Plugin) (cb : List Event)
    (h : destructor_callbacks self = some cb) : teardown_callbacks cb = cb := by
  unfold destructor_callbacks at h
  cases hh : self.handle with
  | none =>
    simp only [hh, Option.some.injEq] at h
    subst h
    rfl
  | some hdl =>
    simp only [hh] at h
    cases hd : self.descriptor with
    | none => simp [hd] at h
    | some d =>
      simp only [hd, Option.some.injEq] at h
      subst h
      cases d.deactivate <;> cases self.m_active_before <;> cases d.cleanup <;>
        simp [teardown_callbacks]

/-- The destructor never calls `set_last_error`. -/
theorem destructor_no_set_last_error (self : Lv2Plugin) (tr : List Event)
    (htr : self.destructor = some tr) : ∀ msg, Event.set_last_error msg ∉ tr := by
  intro msg hmem
  unfold Lv2Plugin.destructor at htr
  cases h : destructor_callbacks self with
  | none => simp [h] at htr
  | some cb =>
    simp only [h, Option.some.injEq] at htr
    subst htr
    simp only [List.mem_append] at hmem
    rcases hmem with (((((((((hm | hm) | hm) | hm) | hm) | hm) | hm) | hm) | hm) | hm)
    · obtain ⟨x, _, hx⟩ := List.mem_filterMap.1 hm
      cases x <;> simp at hx
    · unfold destructor_callbacks at h
      cases hh : self.handle with
      | none =>
        simp only [hh, Option.some.injEq] at h
        subst h
        simp at hm
      | some hdl =>
        simp only [hh] at h
        cases hd : self.descriptor with
        | none => simp [hd] at h
        | some d =>
          simp only [hd, Option.some.injEq] at h
          subst h
          cases d.deactivate <;> cases self.m_active_before <;> cases d.cleanup <;>
            simp at hm
    · exact absurd (phase_delete_feature_data _ _ _ hm) (by simp [teardown_phase])
    · exact absurd (phase_delete_feature_data _ _ _ hm) (by simp [teardown_phase])
    · exact absurd (phase_delete_feature_data _ _ _ hm) (by simp [teardown_phase])
    · exact absurd (phase_delete_feature_data _ _ _ hm) (by simp [teardown_phase])
    · exact absurd (phase_delete_features_loop _ _ _ _ hm) (by simp [teardown_phase])
    · exact absurd (phase_rdf_free _ _ hm) (by simp [teardown_phase])
    · exact absurd (phase_remove_from_jack _ _ hm) (by simp [teardown_phase])
    · exact absurd (phase_delete_buffers _ _ hm) (by simp [teardown_phase])

/-- The destructor is defined whenever its two guarded callbacks are, and these are the
only `deactivate` and `cleanup` calls it makes. -/
theorem destructor_of_callbacks (self : Lv2Plugin) (cb : List Event)
    (h : destructor_callbacks self = some cb) :
    ∃ tr, self.destructor = some tr ∧ teardown_callbacks tr = cb
      ∧ set_last_error_calls tr = [] ∧ (∀ msg, Event.set_last_error msg ∉ tr) := by
  have hdef : ∃ tr, self.destructor = some tr := by
    unfold Lv2Plugin.destructor
    rw [h]
    exact ⟨_, rfl⟩
  obtain ⟨tr, htr⟩ := hdef
  have hph := destructor_phased self tr htr
  refine ⟨tr, htr, ?_, ?_, ?_⟩
  · unfold Lv2Plugin.destructor at htr
    simp only [h, Option.some.injEq] at htr
    subst htr
    simp only [teardown_callbacks_append]
    rw [teardown_callbacks_nil_of_phase _ 0 (phase_free_uri _) (by decide) (by decide),
      teardown_callbacks_of_callbacks self cb h,
      teardown_callbacks_nil_of_phase _ 3
        (phase_delete_feature_data self.features lv2_feature_id_uri_map)
        (by decide) (by decide),
      teardown_callbacks_nil_of_phase _ 3
        (phase_delete_feature_data self.features lv2_feature_id_urid_map)
        (by decide) (by decide),
      teardown_callbacks_nil_of_phase _ 3
        (phase_delete_feature_data self.features lv2_feature_id_urid_unmap)
        (by decide) (by decide),
      teardown_callbacks_nil_of_phase _ 3
        (phase_delete_feature_data self.features lv2_feature_id_event)
        (by decide) (by decide),
      teardown_callbacks_nil_of_phase _ 4
        (phase_delete_features_loop self.features lv2_feature_count 0)
        (by decide) (by decide),
      teardown_callbacks_nil_of_phase _ 5 (phase_rdf_free self) (by decide) (by decide),
      teardown_callbacks_nil_of_phase _ 6 (phase_remove_from_jack self)
        (by decide) (by decide),
      teardown_callbacks_nil_of_phase _ 7 (phase_delete_buffers self)
        (by decide) (by decide)]
    simp
  · have hgen : ∀ l : List Event, (∀ msg, Event.set_last_error msg ∉ l) →
        set_last_error_calls l = [] := by
      intro l
      induction l with
      | nil => intro _; rfl
      | cons a l ih =>
        intro hl
        have hl' := ih (fun msg hm => hl msg (by simp [hm]))
        cases a with
        | set_last_error m => exact absurd (List.mem_cons_self _ _) (hl m)
        | _ => simpa [set_last_error_calls] using hl'
    exact hgen tr (destructor_no_set_last_error self tr htr)
  · exact destructor_no_set_last_error self tr htr

theorem not_mem_enumeration_instantiate (rdf : LV2_RDF_Descriptor) (i : Nat) (uri : String)
    (rate : Nat) (bundle : String) (fs : List (Option LV2_Feature))
    (res : Option LV2_Handle) :
    Event.instantiate uri rate bundle fs res ∉ enumeration_trace rdf i := by
  simp [enumeration_trace]

/-- What `init`, called on an object without a handle, leaves for the destructor: no
`deactivate` or `cleanup` has been called, `m_active_before` is untouched, and `handle` is
non-null exactly when `instantiate` was called and answered that handle. -/
theorem init_lifecycle (env : Env) (fuel : Nat) (self : Lv2Plugin) (filename URI : String)
    (extra : Option LV2_RDF_Descriptor) (r : InitResult) (hself : self.handle = none)
    (h : self.init env fuel filename URI extra = some r) :
    teardown_callbacks r.trace = []
      ∧ r.plugin.m_active_before = self.m_active_before
      ∧ ((r.plugin.handle = none
            ∧ ∀ uri rate bundle fs hdl,
                Event.instantiate uri rate bundle fs (some hdl) ∉ r.trace)
          ∨ (∃ d hdl, r.plugin.handle = some hdl ∧ r.plugin.descriptor = some d
            ∧ (∃ uri rate bundle fs,
                Event.instantiate uri rate bundle fs (some hdl) ∈ r.trace)
            ∧ ∀ uri rate bundle fs hdl',
                Event.instantiate uri rate bundle fs (some hdl') ∈ r.trace → hdl' = hdl)) := by
  rcases init_cases env fuel self filename URI extra r h with
    ⟨he, rfl⟩ | ⟨rdf, he, ho, rfl⟩ | ⟨rdf, he, ho, hs, rfl⟩
    | ⟨rdf, descfn, i, he, ho, hs, hnf, _, rfl⟩
    | ⟨rdf, descfn, i, d, he, ho, hs, hfm, _, hin, rfl⟩
    | ⟨rdf, descfn, i, d, hdl, he, ho, hs, hfm, _, hin, hj, rfl⟩
    | ⟨rdf, descfn, i, d, hdl, he, ho, hs, hfm, _, hin, hj, rfl⟩
  · exact ⟨rfl, rfl, Or.inl ⟨hself, by simp⟩⟩
  · exact ⟨rfl, rfl, Or.inl ⟨hself, by simp⟩⟩
  · exact ⟨rfl, rfl, Or.inl ⟨hself, by simp⟩⟩
  · refine ⟨?_, rfl, Or.inl ⟨hself, ?_⟩⟩
    · show teardown_callbacks (enumeration_trace rdf i ++ _) = _
      rw [teardown_callbacks_enumeration]; rfl
    · intro uri rate bundle fs hdl hm
      rcases List.mem_append.1 hm with hm | hm
      · exact not_mem_enumeration_instantiate _ _ _ _ _ _ _ hm
      · simp at hm
  · refine ⟨?_, rfl, Or.inl ⟨rfl, ?_⟩⟩
    · show teardown_callbacks (enumeration_trace rdf i ++ _) = _
      rw [teardown_callbacks_enumeration]; rfl
    · intro uri rate bundle fs hdl hm
      rcases List.mem_append.1 hm with hm | hm
      · exact not_mem_enumeration_instantiate _ _ _ _ _ _ _ hm
      · simp [instantiate_event, hin] at hm
  · refine ⟨?_, rfl, Or.inr ⟨d, hdl, rfl, rfl, ⟨d.URI, env.get_sample_rate, rdf.Bundle,
      self.features, ?_⟩, ?_⟩⟩
    · show teardown_callbacks (enumeration_trace rdf i ++ _ ++ _ ++ _) = _
      rw [List.append_assoc, List.append_assoc, teardown_callbacks_enumeration]; rfl
    · simp [instantiate_event, hin]
    · intro uri rate bundle fs hdl' hm
      simp only [List.append_assoc, List.mem_append] at hm
      rcases hm with hm | hm | hm | hm
      · exact absurd hm (not_mem_enumeration_instantiate _ _ _ _ _ _ _)
      · simp [instantiate_event, hin] at hm
        exact hm.2.2.2.2
      · simp [registration_trace] at hm
      · simp at hm
  · refine ⟨?_, rfl, Or.inr ⟨d, hdl, rfl, rfl, ⟨d.URI, env.get_sample_rate, rdf.Bundle,
      self.features, ?_⟩, ?_⟩⟩
    · show teardown_callbacks (enumeration_trace rdf i ++ _ ++ _) = _
      rw [List.append_assoc, teardown_callbacks_enumeration]; rfl
    · simp [instantiate_event, hin]
    · intro uri rate bundle fs hdl' hm
      simp only [List.append_assoc, List.mem_append] at hm
      rcases hm with hm | hm | hm
      · exact absurd hm (not_mem_enumeration_instantiate _ _ _ _ _ _ _)
      · simp [instantiate_event, hin] at hm
        exact hm.2.2.2.2
      · simp [registration_trace] at hm

/-- After `init` on an object without a handle the destructor's guarded callbacks are
defined: `descriptor` is non-null whenever `handle` is. -/
theorem init_destructor_defined (env : Env) (fuel : Nat) (self : Lv2Plugin)
    (filename URI : String) (extra : Option LV2_RDF_Descriptor) (r : InitResult)
    (hself : self.handle = none) (h : self.init env fuel filename URI extra = some r)
    (b : Bool) :
    ∃ cb, destructor_callbacks { r.plugin with m_active_before := b } = some cb := by
  obtain ⟨_, _, hcase⟩ := init_lifecycle env fuel self filename URI extra r hself h
  rcases hcase with ⟨hh, _⟩ | ⟨d, hdl, hh, hd, _⟩
  · exact ⟨[], by simp [destructor_callbacks, hh]⟩
  · refine ⟨(if d.deactivate && b then [Event.deactivate hdl] else [])
      ++ (if d.cleanup then [Event.cleanup hdl] else []), ?_⟩
    simp only [destructor_callbacks, hh, hd]

/-! ### Lemmas for `add_plugin_lv2` -/

theorem get_new_plugin_id_loop_spec :
    ∀ (l : List (Option Lv2Plugin)) (i : Nat),
      get_new_plugin_id_loop l i = -1
        ∨ ∃ k, k < l.length ∧ get_new_plugin_id_loop l i = ((i + k : Nat) : Int)
            ∧ l[k]? = some none := by
  intro l
  induction l with
  | nil => intro i; exact Or.inl rfl
  | cons a l ih =>
    intro i
    cases a with
    | none => exact Or.inr ⟨0, by simp, by simp [get_new_plugin_id_loop], by simp⟩
    | some p =>
      rcases ih (i + 1) with h | ⟨k, hk, hv, hn⟩
      · exact Or.inl (by simp only [get_new_plugin_id_loop]; exact h)
      · refine Or.inr ⟨k + 1, by simp only [List.length_cons]; omega, ?_, ?_⟩
        · simp only [get_new_plugin_id_loop]
          rw [hv]
          congr 1
          omega
        · simpa using hn

/-- The slot id of the specification's `get_new_plugin_id`: `-1`, or the index of an
empty slot of the registry. -/
theorem get_new_plugin_id_spec (l : List (Option Lv2Plugin)) :
    get_new_plugin_id l = -1
      ∨ (0 ≤ get_new_plugin_id l ∧ (get_new_plugin_id l).toNat < l.length
          ∧ l[(get_new_plugin_id l).toNat]? = some none) := by
  unfold get_new_plugin_id
  rcases get_new_plugin_id_loop_spec l 0 with h | ⟨k, hk, hv, hn⟩
  · exact Or.inl h
  · right
    rw [hv]
    simp only [Nat.zero_add, Int.toNat_natCast]
    exact ⟨Int.natCast_nonneg k, hk, hn⟩

/-- A failed `init` has called `set_last_error`. -/
theorem init_failure_error (env : Env) (fuel : Nat) (self : Lv2Plugin)
    (filename URI : String) (extra : Option LV2_RDF_Descriptor) (r : InitResult)
    (h : self.init env fuel filename URI extra = some r) (hret : r.ret = false) :
    ∃ msg, Event.set_last_error msg ∈ r.trace := by
  rcases init_cases env fuel self filename URI extra r h with
    ⟨he, rfl⟩ | ⟨rdf, he, ho, rfl⟩ | ⟨rdf, he, ho, hs, rfl⟩
    | ⟨rdf, descfn, i, he, ho, hs, hnf, _, rfl⟩
    | ⟨rdf, descfn, i, d, he, ho, hs, hfm, _, hin, rfl⟩
    | ⟨rdf, descfn, i, d, hdl, he, ho, hs, hfm, _, hin, hj, rfl⟩
    | ⟨rdf, descfn, i, d, hdl, he, ho, hs, hfm, _, hin, hj, rfl⟩
  · exact ⟨"Failed to find the requested plugin in the LV2 Bundle", by simp⟩
  · exact ⟨env.lib_error, by simp⟩
  · exact ⟨"Could not find the LV2 Descriptor in the plugin library", by simp⟩
  · exact ⟨"Could not find the requested plugin URI in the plugin library", by simp⟩
  · exact ⟨"Plugin failed to initialize", by simp⟩
  · exact ⟨"Failed to register plugin in JACK", by simp⟩
  · exact absurd hret (by simp)

/-- A successful `init` has given the object a name. -/
theorem init_success_name (env : Env) (fuel : Nat) (self : Lv2Plugin)
    (filename URI : String) (extra : Option LV2_RDF_Descriptor) (r : InitResult)
    (h : self.init env fuel filename URI extra = some r) (hret : r.ret = true) :
    ∃ rdf, extra = some rdf ∧ r.plugin.m_name = some (env.get_unique_name rdf.Name) := by
  rcases init_cases env fuel self filename URI extra r h with
    ⟨he, rfl⟩ | ⟨rdf, he, ho, rfl⟩ | ⟨rdf, he, ho, hs, rfl⟩
    | ⟨rdf, descfn, i, he, ho, hs, hnf, _, rfl⟩
    | ⟨rdf, descfn, i, d, he, ho, hs, hfm, _, hin, rfl⟩
    | ⟨rdf, descfn, i, d, hdl, he, ho, hs, hfm, _, hin, hj, rfl⟩
    | ⟨rdf, descfn, i, d, hdl, he, ho, hs, hfm, _, hin, hj, rfl⟩
  · exact absurd hret (by simp)
  · exact absurd hret (by simp)
  · exact absurd hret (by simp)
  · exact absurd hret (by simp)
  · exact absurd hret (by simp)
  · exact absurd hret (by simp)
  · exact ⟨rdf, he, rfl⟩

/-! ### Constructible objects -/

/-- C1: on every table reachable from the constructor's table (its size within the `int`
index range of `QList`), for every URI `u`: `get_custom_uri_string(get_custom_uri_id(u))`
is a string equal to `u`, and a second `get_custom_uri_id(u)` returns the same id and leaves
the table unchanged. -/
theorem C1_uri_round_trip_idempotent (t : UriTable) (u : String) (_hr : Reachable t)
    (hlen : t.length + 1 < 2 ^ 31) :
    get_custom_uri_string (get_custom_uri_id t u).2 (int_of_uint32 (get_custom_uri_id t u).1)
        = some (some u)
      ∧ get_custom_uri_id (get_custom_uri_id t u).2 u = get_custom_uri_id t u :=
  round_trip_idempotent t u hlen

/-- Witness of C1: the table reached by interning one URI, queried for another. -/
theorem C1_uri_round_trip_idempotent_witness :
    Reachable (get_custom_uri_id custom_uri_ids_init "urn:a").2
      ∧ get_custom_uri_string
          (get_custom_uri_id (get_custom_uri_id custom_uri_ids_init "urn:a").2 "urn:b").2
          (int_of_uint32
            (get_custom_uri_id (get_custom_uri_id custom_uri_ids_init "urn:a").2 "urn:b").1)
        = some (some "urn:b") :=
  ⟨Reachable.step _ _ Reachable.init,
   (C1_uri_round_trip_idempotent _ "urn:b" (Reachable.step _ _ Reachable.init)
      (by decide)).1⟩

/-- C2 (as stated, refuted): on the freshly constructed table the four entries are null,
and `get_custom_uri_id("http://lv2plug.in/ns/ext/atom#String")` returns 4, not
`CARLA_URI_MAP_ID_ATOM_STRING` = 1. -/
theorem C2_atom_string_id_counterexample :
    custom_uri_ids_init = [none, none, none, none]
      ∧ (get_custom_uri_id custom_uri_ids_init "http://lv2plug.in/ns/ext/atom#String").1 = 4
      ∧ ¬ ((get_custom_uri_id custom_uri_ids_init "http://lv2plug.in/ns/ext/atom#String").1
            = CARLA_URI_MAP_ID_ATOM_STRING) := by
  refine ⟨by decide, by decide, by decide⟩

/-- C2 (amended): the constructor seeds the table with null placeholders at the ids 0 to 3;
on the fresh table `get_custom_uri_id("http://lv2plug.in/ns/ext/atom#String")` returns
`CARLA_URI_MAP_ID_COUNT` = 4, and on every reachable table it returns an id that is at
least 4, hence never `CARLA_URI_MAP_ID_ATOM_STRING` = 1. -/
theorem C2_atom_string_id_past_reserved (t : UriTable) (hr : Reachable t)
    (hlen : t.length + 1 < 2 ^ 31) :
    (∀ k, k < CARLA_URI_MAP_ID_COUNT → custom_uri_ids_init[k]? = some none)
      ∧ (get_custom_uri_id custom_uri_ids_init "http://lv2plug.in/ns/ext/atom#String").1
          = CARLA_URI_MAP_ID_COUNT
      ∧ CARLA_URI_MAP_ID_COUNT
          ≤ (get_custom_uri_id t "http://lv2plug.in/ns/ext/atom#String").1
      ∧ (get_custom_uri_id t "http://lv2plug.in/ns/ext/atom#String").1
          ≠ CARLA_URI_MAP_ID_ATOM_STRING := by
  have h := reachable_id_ge_count t "http://lv2plug.in/ns/ext/atom#String" hr hlen
  refine ⟨by decide, by decide, h, ?_⟩
  intro h1
  rw [h1] at h
  exact absurd h (by decide)

/-- Witness of C2 (amended): the table reached by interning one other URI first; the
atom string then gets id 5. -/
theorem C2_atom_string_id_past_reserved_witness :
    Reachable (get_custom_uri_id custom_uri_ids_init "urn:a").2
      ∧ CARLA_URI_MAP_ID_COUNT
          ≤ (get_custom_uri_id (get_custom_uri_id custom_uri_ids_init "urn:a").2
              "http://lv2plug.in/ns/ext/atom#String").1
      ∧ (get_custom_uri_id (get_custom_uri_id custom_uri_ids_init "urn:a").2
              "http://lv2plug.in/ns/ext/atom#String").1 = 5 :=
  ⟨Reachable.step _ _ Reachable.init,
   (C2_atom_string_id_past_reserved _ (Reachable.step _ _ Reachable.init) (by decide)).2.2.1,
   by decide⟩

/-- C10: on every table reachable from the constructor's table (its size within the `int`
index range of `QList`) and for every URI `u`, `get_custom_uri_id(u)` is not 0; and when
`u` is none of the three well-known URIs (constants of the LV2 headers, here parameters),
the id is at least `CARLA_URI_MAP_ID_COUNT` = 4 and `get_custom_uri_string` of it gives
back `u`. -/
theorem C10_reserved_ids_never_issued (atom_string midi_event time_position : String)
    (t : UriTable) (u : String) (hr : Reachable t) (hlen : t.length + 1 < 2 ^ 31) :
    (get_custom_uri_id t u).1 ≠ 0
      ∧ (u ≠ atom_string ∧ u ≠ midi_event ∧ u ≠ time_position →
          CARLA_URI_MAP_ID_COUNT ≤ (get_custom_uri_id t u).1
            ∧ get_custom_uri_string (get_custom_uri_id t u).2
                (int_of_uint32 (get_custom_uri_id t u).1) = some (some u)) := by
  have h := reachable_id_ge_count t u hr hlen
  refine ⟨?_, fun _ => ⟨h, (round_trip_idempotent t u hlen).1⟩⟩
  intro h0
  rw [h0] at h
  exact absurd h (by decide)

/-- Witness of C10: the URI of the specification's scenario, interned on the table reached
by interning one other URI first. -/
theorem C10_reserved_ids_never_issued_witness :
    Reachable (get_custom_uri_id custom_uri_ids_init "urn:a").2
      ∧ (get_custom_uri_id (get_custom_uri_id custom_uri_ids_init "urn:a").2
            "http://example.org/custom").1 ≠ 0
      ∧ CARLA_URI_MAP_ID_COUNT
          ≤ (get_custom_uri_id (get_custom_uri_id custom_uri_ids_init "urn:a").2
              "http://example.org/custom").1 :=
  ⟨Reachable.step _ _ Reachable.init,
   (C10_reserved_ids_never_issued "http://lv2plug.in/ns/ext/atom#String"
      "http://lv2plug.in/ns/ext/midi#MidiEvent" "http://lv2plug.in/ns/ext/time#Position"
      _ "http://example.org/custom" (Reachable.step _ _ Reachable.init) (by decide)).1,
   ((C10_reserved_ids_never_issued "http://lv2plug.in/ns/ext/atom#String"
      "http://lv2plug.in/ns/ext/midi#MidiEvent" "http://lv2plug.in/ns/ext/time#Position"
      _ "http://example.org/custom" (Reachable.step _ _ Reachable.init) (by decide)).2
      (by decide)).1⟩

/-- C9: whenever the reverb flag `LV2_CLASS_REVERB` is set in the category flags, whatever
else is set, `category()` returns `PLUGIN_CATEGORY_DELAY`; so a flag set with generator and
reverb does not resolve to `PLUGIN_CATEGORY_SYNTH`. -/
theorem C9_reverb_takes_priority (hd : Lv2RdfHeader) (self : Lv2Plugin)
    (rdf : LV2_RDF_Descriptor) (hrdf : self.rdf_descriptor = some rdf)
    (hrev : rdf.Type_ &&& hd.LV2_CLASS_REVERB ≠ 0) :
    self.category hd = some PluginCategory.PLUGIN_CATEGORY_DELAY
      ∧ self.category hd ≠ some PluginCategory.PLUGIN_CATEGORY_SYNTH := by
  have h : self.category hd = some PluginCategory.PLUGIN_CATEGORY_DELAY := by
    unfold Lv2Plugin.category
    rw [hrdf]
    simp only [if_pos hrev]
  refine ⟨h, ?_⟩
  rw [h]
  decide

/-- Witness of C9: flags generator | reverb, on which the generator test of the header
answers true, resolve to `PLUGIN_CATEGORY_DELAY`. -/
theorem C9_reverb_takes_priority_witness :
    example_header.LV2_IS_GENERATOR example_rdf.Type_ = true
      ∧ Lv2Plugin.category example_header
          { Lv2Plugin.ctor false with rdf_descriptor := some example_rdf }
        = some PluginCategory.PLUGIN_CATEGORY_DELAY :=
  ⟨by decide,
   (C9_reverb_takes_priority example_header
      { Lv2Plugin.ctor false with rdf_descriptor := some example_rdf } example_rdf rfl
      (by decide)).1⟩

/-- C3: with the library open and the entry function `descfn` resolved: if `i` is the
least index where `descfn` answers the requested URI (all earlier answers non-null with a
different URI), `init` selects `descfn(i)`, having called `descfn` at `0, …, i`, and
instantiates it; if `descfn` answers null at `i` before any match, the traversal stops
there, `descriptor` is null, `instantiate` is not called, `init` returns false and the one
error set is "Could not find the requested plugin URI in the plugin library". -/
theorem C3_first_match_selected (env : Env) (self : Lv2Plugin) (filename URI : String)
    (rdf : LV2_RDF_Descriptor) (descfn : Nat → Option LV2_Descriptor) (i fuel : Nat)
    (hopen : env.lib_open rdf.Binary = true)
    (hsym : env.lib_symbol "lv2_descriptor" = some descfn) (hfuel : i < fuel) :
    (∀ d, FirstMatch descfn URI i d →
        ∃ r rest, self.init env fuel filename URI (some rdf) = some r
          ∧ r.plugin.descriptor = some d
          ∧ r.trace = [Event.lib_open rdf.Binary, Event.lib_symbol "lv2_descriptor"]
              ++ (List.range (i + 1)).map Event.descfn
              ++ Event.instantiate d.URI env.get_sample_rate rdf.Bundle self.features
                  (d.instantiate env.get_sample_rate rdf.Bundle self.features) :: rest)
      ∧ (NullFirst descfn URI i →
        ∃ r, self.init env fuel filename URI (some rdf) = some r
          ∧ r.ret = false
          ∧ r.plugin.descriptor = none
          ∧ r.plugin.handle = self.handle
          ∧ instantiate_features r.trace = []
          ∧ r.trace = [Event.lib_open rdf.Binary, Event.lib_symbol "lv2_descriptor"]
              ++ (List.range (i + 1)).map Event.descfn
              ++ [Event.set_last_error
                    "Could not find the requested plugin URI in the plugin library"]) := by
  constructor
  · rintro d ⟨hi, hd, hu, hnm⟩
    have hloop := loop_first_stop descfn URI i fuel hi hnm (Or.inr ⟨d, hd, hu⟩) hfuel
    rw [hd] at hloop
    simp only [Lv2Plugin.init, hopen, hsym, hloop, if_true]
    cases hh : d.instantiate env.get_sample_rate rdf.Bundle self.features with
    | none =>
      exact ⟨_, [Event.set_last_error "Plugin failed to initialize"], rfl, rfl, by simp⟩
    | some h =>
      cases hj : env.carla_jack_register_plugin with
      | true =>
        exact ⟨_, [Event.get_unique_name rdf.Name, Event.lv2_rdf_dup,
          Event.carla_jack_register_plugin], rfl, rfl, by simp⟩
      | false =>
        exact ⟨_, [Event.get_unique_name rdf.Name, Event.lv2_rdf_dup,
          Event.carla_jack_register_plugin,
          Event.set_last_error "Failed to register plugin in JACK"], rfl, rfl, by simp⟩
  · rintro ⟨hi, hd, hnm⟩
    have hloop := loop_first_stop descfn URI i fuel hi hnm (Or.inl hd) hfuel
    rw [hd] at hloop
    simp only [Lv2Plugin.init, hopen, hsym, hloop, if_true]
    refine ⟨_, rfl, rfl, rfl, rfl, ?_, rfl⟩
    have hno : ∀ l : List Nat, ∀ tl : List Event,
        instantiate_features (l.map Event.descfn ++ tl) = instantiate_features tl := by
      intro l tl
      induction l with
      | nil => rfl
      | cons a l ih => simpa [instantiate_features] using ih
    show instantiate_features (Event.lib_open _ :: Event.lib_symbol _ ::
      ((List.range (i + 1)).map Event.descfn ++ [Event.set_last_error _])) = []
    simp only [instantiate_features]
    rw [hno]
    rfl

/-- Witness of C3: a library with three plugins, the requested URI at index 1 (selected
after the calls `descfn(0)`, `descfn(1)`), and a URI the library lacks (null at index 3,
`init` returns false). -/
theorem C3_first_match_selected_witness :
    (∃ r, (Lv2Plugin.ctor false).init (example_env (some 1000) true) 5 "/lib/verb.so"
          "urn:test:verb" (some example_rdf) = some r
        ∧ r.plugin.descriptor = some (example_descriptor "urn:test:verb" (some 1000)))
      ∧ (∃ r, (Lv2Plugin.ctor false).init (example_env (some 1000) true) 5 "/lib/verb.so"
          "urn:test:missing" (some example_rdf) = some r
        ∧ r.ret = false
        ∧ r.trace = [Event.lib_open "/lib/verb.so", Event.lib_symbol "lv2_descriptor",
            Event.descfn 0, Event.descfn 1, Event.descfn 2, Event.descfn 3,
            Event.set_last_error
              "Could not find the requested plugin URI in the plugin library"]) := by
  have hfm : FirstMatch (example_descfn (some 1000)) "urn:test:verb" 1
      (example_descriptor "urn:test:verb" (some 1000)) := by
    refine ⟨by norm_num, rfl, rfl, ?_⟩
    intro j hj
    interval_cases j
    exact ⟨_, rfl, by decide⟩
  have hnf : NullFirst (example_descfn (some 1000)) "urn:test:missing" 3 := by
    refine ⟨by norm_num, rfl, ?_⟩
    intro j hj
    interval_cases j
    · exact ⟨_, rfl, by decide⟩
    · exact ⟨_, rfl, by decide⟩
    · exact ⟨_, rfl, by decide⟩
  constructor
  · obtain ⟨r, _, h1, h2, _⟩ :=
      (C3_first_match_selected (example_env (some 1000) true) (Lv2Plugin.ctor false)
        "/lib/verb.so" "urn:test:verb" example_rdf (example_descfn (some 1000)) 1 5
        rfl (by simp [example_env]) (by decide)).1 _ hfm
    exact ⟨r, h1, h2⟩
  · obtain ⟨r, h1, h2, _, _, _, h3⟩ :=
      (C3_first_match_selected (example_env (some 1000) true) (Lv2Plugin.ctor false)
        "/lib/verb.so" "urn:test:missing" example_rdf (example_descfn (some 1000)) 3 5
        rfl (by simp [example_env]) (by decide)).2 hnf
    exact ⟨r, h1, h2, h3⟩

/-- C6 (as stated, refuted): in a run of `init` on a freshly constructed object in which
every step succeeds, the feature array handed to `instantiate` is null at all five
indices; there is no record at index 0. -/
theorem C6_feature_vector_counterexample :
    (((Lv2Plugin.ctor false).init (example_env (some 1000) true) 5 "/lib/verb.so"
          "urn:test:verb" (some example_rdf)).map
        (fun r => (r.ret, instantiate_features r.trace)))
        = some (true, [[none, none, none, none, none]])
      ∧ ¬ FeatureVectorAsSpecified [none, none, none, none, none] := by
  refine ⟨by decide, ?_⟩
  rintro ⟨h, _⟩
  obtain ⟨f, hf, _⟩ := h 0 (by decide)
  simp at hf

/-- C6 (amended): whenever `init`, called on a freshly constructed object, calls
`instantiate`, the feature array it passes has `lv2_feature_count + 1` = 5 entries, all of
them null; in particular the entry at index 4 (`lv2_feature_count`) is null. -/
theorem C6_feature_vector_all_null (env : Env) (fuel : Nat) (m_active_before : Bool)
    (filename URI : String) (extra : Option LV2_RDF_Descriptor) (r : InitResult)
    (h : (Lv2Plugin.ctor m_active_before).init env fuel filename URI extra = some r) :
    ∀ fs, fs ∈ instantiate_features r.trace →
      fs.length = lv2_feature_count + 1
        ∧ (∀ k, k ≤ lv2_feature_count → fs[k]? = some none)
        ∧ fs[lv2_feature_count]? = some none := by
  intro fs hfs
  have hfeat := init_instantiate_features env fuel _ filename URI extra r h fs hfs
  have hval : (Lv2Plugin.ctor m_active_before).features = [none, none, none, none, none] := rfl
  rw [hfeat, hval]
  refine ⟨rfl, ?_, rfl⟩
  intro k hk
  have hk' : k ≤ 4 := hk
  interval_cases k <;> rfl

/-- Witness of C6 (amended): a run in which every step succeeds; `instantiate` is called
once, with five null entries. -/
theorem C6_feature_vector_all_null_witness :
    ∃ r, (Lv2Plugin.ctor false).init (example_env (some 1000) true) 5 "/lib/verb.so"
          "urn:test:verb" (some example_rdf) = some r
      ∧ instantiate_features r.trace = [[none, none, none, none, none]]
      ∧ ∀ fs, fs ∈ instantiate_features r.trace →
          fs.length = lv2_feature_count + 1
            ∧ (∀ k, k ≤ lv2_feature_count → fs[k]? = some none)
            ∧ fs[lv2_feature_count]? = some none := by
  refine ⟨_, rfl, by decide, ?_⟩
  exact C6_feature_vector_all_null (example_env (some 1000) true) 5 false "/lib/verb.so"
    "urn:test:verb" (some example_rdf) _ rfl

/-- C4: `init` returns whenever the enumeration, where it is reached, comes to rest below
the fuel. When it returns, it returns true exactly when the descriptor argument is
non-null, `lib_open` succeeds, the symbol `lv2_descriptor` resolves, the requested URI is
found, `instantiate` answers a non-null handle and `carla_jack_register_plugin` succeeds,
and then `set_last_error` is not called. When it returns false, the run is the one of the
first failing step in that order: it ends with the single call of `set_last_error`, with
that step's message, and contains no effect of a later step. -/
theorem C4_init_first_failure (env : Env) (fuel : Nat) (self : Lv2Plugin)
    (filename URI : String) (extra : Option LV2_RDF_Descriptor) :
    ((∀ rdf descfn, extra = some rdf → env.lib_open rdf.Binary = true →
          env.lib_symbol "lv2_descriptor" = some descfn →
          ∃ i, i < fuel ∧ i < 2 ^ 32 ∧ NonMatchBelow descfn URI i ∧ StopsAt descfn URI i) →
        ∃ r, self.init env fuel filename URI extra = some r)
    ∧ ∀ r, self.init env fuel filename URI extra = some r →
      (r.ret = true ↔
          ∃ rdf descfn i d hdl, extra = some rdf ∧ env.lib_open rdf.Binary = true
            ∧ env.lib_symbol "lv2_descriptor" = some descfn
            ∧ FirstMatch descfn URI i d
            ∧ d.instantiate env.get_sample_rate rdf.Bundle self.features = some hdl
            ∧ env.carla_jack_register_plugin = true)
      ∧ (r.ret = true → set_last_error_calls r.trace = [])
      ∧ (r.ret = false →
          (extra = none
            ∧ r.trace
                = [Event.set_last_error "Failed to find the requested plugin in the LV2 Bundle"]
            ∧ set_last_error_calls r.trace
                = ["Failed to find the requested plugin in the LV2 Bundle"])
          ∨ (∃ rdf, extra = some rdf ∧ env.lib_open rdf.Binary = false
            ∧ r.trace = [Event.lib_open rdf.Binary, Event.set_last_error env.lib_error]
            ∧ set_last_error_calls r.trace = [env.lib_error])
          ∨ (∃ rdf, extra = some rdf ∧ env.lib_open rdf.Binary = true
            ∧ env.lib_symbol "lv2_descriptor" = none
            ∧ r.trace = [Event.lib_open rdf.Binary, Event.lib_symbol "lv2_descriptor",
                Event.set_last_error "Could not find the LV2 Descriptor in the plugin library"]
            ∧ set_last_error_calls r.trace
                = ["Could not find the LV2 Descriptor in the plugin library"])
          ∨ (∃ rdf descfn i, extra = some rdf ∧ env.lib_open rdf.Binary = true
            ∧ env.lib_symbol "lv2_descriptor" = some descfn
            ∧ NullFirst descfn URI i
            ∧ r.trace = enumeration_trace rdf i ++ [Event.set_last_error
                "Could not find the requested plugin URI in the plugin library"]
            ∧ set_last_error_calls r.trace
                = ["Could not find the requested plugin URI in the plugin library"])
          ∨ (∃ rdf descfn i d, extra = some rdf ∧ env.lib_open rdf.Binary = true
            ∧ env.lib_symbol "lv2_descriptor" = some descfn
            ∧ FirstMatch descfn URI i d
            ∧ d.instantiate env.get_sample_rate rdf.Bundle self.features = none
            ∧ r.trace = enumeration_trace rdf i ++ [instantiate_event env self rdf d,
                Event.set_last_error "Plugin failed to initialize"]
            ∧ set_last_error_calls r.trace = ["Plugin failed to initialize"])
          ∨ (∃ rdf descfn i d hdl, extra = some rdf ∧ env.lib_open rdf.Binary = true
            ∧ env.lib_symbol "lv2_descriptor" = some descfn
            ∧ FirstMatch descfn URI i d
            ∧ d.instantiate env.get_sample_rate rdf.Bundle self.features = some hdl
            ∧ env.carla_jack_register_plugin = false
            ∧ r.trace = enumeration_trace rdf i ++ [instantiate_event env self rdf d]
                ++ registration_trace rdf
                ++ [Event.set_last_error "Failed to register plugin in JACK"]
            ∧ set_last_error_calls r.trace = ["Failed to register plugin in JACK"])) := by
  refine ⟨init_returns env fuel self filename URI extra, ?_⟩
  intro r h
  rcases init_cases env fuel self filename URI extra r h with
    ⟨he, rfl⟩ | ⟨rdf, he, ho, rfl⟩ | ⟨rdf, he, ho, hs, rfl⟩
    | ⟨rdf, descfn, i, he, ho, hs, hnf, _, rfl⟩
    | ⟨rdf, descfn, i, d, he, ho, hs, hfm, _, hin, rfl⟩
    | ⟨rdf, descfn, i, d, hdl, he, ho, hs, hfm, _, hin, hj, rfl⟩
    | ⟨rdf, descfn, i, d, hdl, he, ho, hs, hfm, _, hin, hj, rfl⟩
  · refine ⟨⟨fun hc => Bool.noConfusion hc, ?_⟩, fun hc => Bool.noConfusion hc, fun _ => Or.inl ⟨he, rfl, rfl⟩⟩
    rintro ⟨rdf', _, _, _, _, he', _⟩
    rw [he] at he'; cases he'
  · refine ⟨⟨fun hc => Bool.noConfusion hc, ?_⟩, fun hc => Bool.noConfusion hc,
      fun _ => Or.inr (Or.inl ⟨rdf, he, ho, rfl, rfl⟩)⟩
    rintro ⟨rdf', _, _, _, _, he', ho', _⟩
    rw [he] at he'; cases he'
    rw [ho] at ho'; cases ho'
  · refine ⟨⟨fun hc => Bool.noConfusion hc, ?_⟩, fun hc => Bool.noConfusion hc,
      fun _ => Or.inr (Or.inr (Or.inl ⟨rdf, he, ho, hs, rfl, rfl⟩))⟩
    rintro ⟨rdf', _, _, _, _, he', _, hs', _⟩
    rw [hs] at hs'; cases hs'
  · refine ⟨⟨fun hc => Bool.noConfusion hc, ?_⟩, fun hc => Bool.noConfusion hc,
      fun _ => Or.inr (Or.inr (Or.inr (Or.inl ⟨rdf, descfn, i, he, ho, hs, hnf, rfl, ?_⟩)))⟩
    · rintro ⟨rdf', descfn', i', d', _, he', _, hs', hfm', _⟩
      rw [hs] at hs'; cases hs'
      exact (null_first_not_match descfn URI i i' d' hnf hfm').elim
    · show set_last_error_calls (enumeration_trace rdf i ++ _) = _
      rw [set_last_error_calls_enumeration]; rfl
  · refine ⟨⟨fun hc => Bool.noConfusion hc, ?_⟩, fun hc => Bool.noConfusion hc,
      fun _ => Or.inr (Or.inr (Or.inr (Or.inr (Or.inl
        ⟨rdf, descfn, i, d, he, ho, hs, hfm, hin, rfl, ?_⟩))))⟩
    · rintro ⟨rdf', descfn', i', d', hdl', he', _, hs', hfm', hin', _⟩
      rw [he] at he'; cases he'
      rw [hs] at hs'; cases hs'
      obtain ⟨_, hd⟩ := first_match_unique descfn URI i i' d d' hfm hfm'
      subst hd
      rw [hin] at hin'; cases hin'
    · show set_last_error_calls (enumeration_trace rdf i ++ _) = _
      rw [set_last_error_calls_enumeration]; rfl
  · refine ⟨⟨fun hc => Bool.noConfusion hc, ?_⟩, fun hc => Bool.noConfusion hc,
      fun _ => Or.inr (Or.inr (Or.inr (Or.inr (Or.inr
        ⟨rdf, descfn, i, d, hdl, he, ho, hs, hfm, hin, hj, rfl, ?_⟩))))⟩
    · rintro ⟨_, _, _, _, _, _, _, _, _, _, hj'⟩
      rw [hj] at hj'; cases hj'
    · show set_last_error_calls (enumeration_trace rdf i ++ _ ++ _ ++ _) = _
      rw [List.append_assoc, List.append_assoc, set_last_error_calls_enumeration]; rfl
  · refine ⟨⟨fun _ => ⟨rdf, descfn, i, d, hdl, he, ho, hs, hfm, hin, hj⟩, fun _ => rfl⟩,
      fun _ => ?_, fun hc => Bool.noConfusion hc⟩
    show set_last_error_calls (enumeration_trace rdf i ++ _ ++ _) = _
    rw [List.append_assoc, set_last_error_calls_enumeration]; rfl

/-- Witness of C4: with JACK refusing the registration, `init` returns false after all
earlier steps, with the one message of the last step. -/
theorem C4_init_first_failure_witness :
    (∃ r, (Lv2Plugin.ctor false).init (example_env (some 1000) false) 5 "/lib/verb.so"
          "urn:test:verb" (some example_rdf) = some r)
      ∧ ((Lv2Plugin.ctor false).init (example_env (some 1000) false) 5 "/lib/verb.so"
          "urn:test:verb" (some example_rdf)).map
            (fun r => (r.ret, set_last_error_calls r.trace))
          = some (false, ["Failed to register plugin in JACK"]) := by
  refine ⟨(C4_init_first_failure (example_env (some 1000) false) 5 (Lv2Plugin.ctor false)
    "/lib/verb.so" "urn:test:verb" (some example_rdf)).1 ?_, by decide⟩
  intro rdf descfn he _ hs
  have hd : example_descfn (some 1000) = descfn := by
    have : (example_env (some 1000) false).lib_symbol "lv2_descriptor"
        = some (example_descfn (some 1000)) := by simp [example_env]
    rw [this] at hs
    exact Option.some.inj hs
  subst hd
  refine ⟨1, by decide, by norm_num, ?_, Or.inr ⟨_, rfl, rfl⟩⟩
  intro j hj
  interval_cases j
  exact ⟨_, rfl, by decide⟩

/-- C7: take a freshly constructed object on which `init` has returned, and let `b` be
the value of `m_active_before` when the destructor runs. The destructor is defined. If
`instantiate` was called and answered a non-null handle, the `deactivate` and `cleanup`
calls from `init` to the end of the destructor are exactly: one `deactivate(handle)` when
the descriptor supplies `deactivate` and `b` is true, then one `cleanup(handle)` when the
descriptor supplies `cleanup`. If `instantiate` answered null or was not called, there is
no such call. When `init` returned false inside `add_plugin_lv2`, the effects of
`add_plugin_lv2` are those of `init` followed by those of this destructor. -/
theorem C7_cleanup_once_after_deactivate (env : Env) (fuel : Nat) (m0 b : Bool)
    (filename URI : String) (extra : Option LV2_RDF_Descriptor) (r : InitResult)
    (h : (Lv2Plugin.ctor m0).init env fuel filename URI extra = some r) :
    ∃ tr, Lv2Plugin.destructor { r.plugin with m_active_before := b } = some tr
      ∧ (∀ uri rate bundle fs hdl,
          Event.instantiate uri rate bundle fs (some hdl) ∈ r.trace →
          ∃ d, r.plugin.descriptor = some d ∧ r.plugin.handle = some hdl
            ∧ teardown_callbacks (r.trace ++ tr)
                = (if d.deactivate && b then [Event.deactivate hdl] else [])
                  ++ (if d.cleanup then [Event.cleanup hdl] else []))
      ∧ ((∀ uri rate bundle fs hdl,
            Event.instantiate uri rate bundle fs (some hdl) ∉ r.trace) →
          teardown_callbacks (r.trace ++ tr) = [])
      ∧ (∀ g ra, m0 = env.m_active_before → b = env.m_active_before → r.ret = false →
          0 ≤ get_new_plugin_id g.CarlaPlugins →
          add_plugin_lv2 env fuel g filename URI extra = some ra →
          ra.trace = r.trace ++ tr) := by
  obtain ⟨hno, hact, hcase⟩ :=
    init_lifecycle env fuel (Lv2Plugin.ctor m0) filename URI extra r rfl h
  obtain ⟨cb, hcb⟩ :=
    init_destructor_defined env fuel (Lv2Plugin.ctor m0) filename URI extra r rfl h b
  obtain ⟨tr, htr, hcalls, _, _⟩ := destructor_of_callbacks _ cb hcb
  refine ⟨tr, htr, ?_, ?_, ?_⟩
  · intro uri rate bundle fs hdl hm
    rcases hcase with ⟨_, hnone⟩ | ⟨d, hdl0, hh, hd, _, huniq⟩
    · exact absurd hm (hnone uri rate bundle fs hdl)
    · have heq := huniq uri rate bundle fs hdl hm
      subst heq
      refine ⟨d, hd, hh, ?_⟩
      rw [teardown_callbacks_append, hno, hcalls, List.nil_append]
      simp only [destructor_callbacks, hh, hd, Option.some.injEq] at hcb
      exact hcb.symm
  · intro hnone
    rcases hcase with ⟨hh, _⟩ | ⟨d, hdl0, _, _, ⟨uri, rate, bundle, fs, hm⟩, _⟩
    · rw [teardown_callbacks_append, hno, hcalls, List.nil_append]
      simp only [destructor_callbacks, hh, Option.some.injEq] at hcb
      exact hcb.symm
    · exact absurd hm (hnone uri rate bundle fs hdl0)
  · intro g ra hm0 hb hret hid hadd
    subst hm0
    subst hb
    have hsame : ({ r.plugin with m_active_before := env.m_active_before } : Lv2Plugin)
        = r.plugin := by
      have hact' : r.plugin.m_active_before = env.m_active_before := hact
      rw [← hact']
    rw [hsame] at htr
    unfold add_plugin_lv2 at hadd
    simp only [ge_iff_le, hid, if_true, h, hret, Bool.false_eq_true, if_false, htr,
      Option.some.injEq] at hadd
    rw [← hadd]

/-- Witness of C7: JACK refuses the registration after `instantiate` answered handle
1000; with `m_active_before` true at destruction the callbacks are one `deactivate(1000)`
followed by one `cleanup(1000)`. -/
theorem C7_cleanup_once_after_deactivate_witness :
    (Lv2Plugin.ctor false).init (example_env (some 1000) false) 5 "/lib/verb.so"
        "urn:test:verb" (some example_rdf) = some example_failed_init
      ∧ ∃ tr, Lv2Plugin.destructor { example_failed_init.plugin with m_active_before := true }
          = some tr
        ∧ teardown_callbacks (example_failed_init.trace ++ tr)
          = [Event.deactivate 1000, Event.cleanup 1000] := by
  refine ⟨rfl, ?_⟩
  obtain ⟨tr, htr, ha, _⟩ := C7_cleanup_once_after_deactivate (example_env (some 1000) false)
    5 false true "/lib/verb.so" "urn:test:verb" (some example_rdf) example_failed_init rfl
  obtain ⟨d, hd, _, hc⟩ := ha "urn:test:verb" 48000 "/lib/verb.lv2/"
    [none, none, none, none, none] 1000 (by decide)
  have hd' : d = example_descriptor "urn:test:verb" (some 1000) :=
    (Option.some.inj hd).symm
  subst hd'
  exact ⟨tr, htr, hc⟩

/-- C5: `add_plugin_lv2` returns whenever the enumeration inside `init` comes to rest
below the fuel. When it returns, the result is non-negative exactly when
`get_new_plugin_id` gave an id >= 0 and `init` succeeded; then the result is that id,
`CarlaPlugins[id]` holds the new plugin, `unique_names[id]` holds its name, and every
other slot of both arrays is unchanged. In every other case the result is -1, a call of
`set_last_error` has been made ("Maximum number of plugins reached" being the only effect
when no id was free), and both arrays are unchanged. -/
theorem C5_add_plugin_atomic (env : Env) (fuel : Nat) (g : Globals)
    (filename label : String) (extra : Option LV2_RDF_Descriptor) :
    ((∀ rdf descfn, extra = some rdf → env.lib_open rdf.Binary = true →
          env.lib_symbol "lv2_descriptor" = some descfn →
          ∃ i, i < fuel ∧ i < 2 ^ 32 ∧ NonMatchBelow descfn label i
            ∧ StopsAt descfn label i) →
        ∃ ra, add_plugin_lv2 env fuel g filename label extra = some ra)
    ∧ ∀ ra, add_plugin_lv2 env fuel g filename label extra = some ra →
      (0 ≤ ra.ret ↔
          (0 ≤ get_new_plugin_id g.CarlaPlugins
            ∧ ∃ r, (Lv2Plugin.ctor env.m_active_before).init env fuel filename label extra
                = some r ∧ r.ret = true))
      ∧ (0 ≤ ra.ret →
          ra.ret = get_new_plugin_id g.CarlaPlugins
            ∧ ra.ret.toNat < g.CarlaPlugins.length
            ∧ ∃ r rdf, (Lv2Plugin.ctor env.m_active_before).init env fuel filename label extra
                = some r
              ∧ extra = some rdf
              ∧ r.plugin.m_name = some (env.get_unique_name rdf.Name)
              ∧ ra.globals.CarlaPlugins[ra.ret.toNat]? = some (some r.plugin)
              ∧ (ra.ret.toNat < g.unique_names.length →
                  ra.globals.unique_names[ra.ret.toNat]? = some r.plugin.m_name)
              ∧ ∀ k, k ≠ ra.ret.toNat →
                  ra.globals.CarlaPlugins[k]? = g.CarlaPlugins[k]?
                    ∧ ra.globals.unique_names[k]? = g.unique_names[k]?)
      ∧ (¬ 0 ≤ ra.ret →
          ra.ret = -1
            ∧ (∃ msg, Event.set_last_error msg ∈ ra.trace)
            ∧ ra.globals.CarlaPlugins = g.CarlaPlugins
            ∧ ra.globals.unique_names = g.unique_names
            ∧ (¬ 0 ≤ get_new_plugin_id g.CarlaPlugins →
                ra.trace = [Event.set_last_error "Maximum number of plugins reached"])) := by
  constructor
  · intro hstop
    unfold add_plugin_lv2
    by_cases hid : 0 ≤ get_new_plugin_id g.CarlaPlugins
    · simp only [ge_iff_le, hid, if_true]
      obtain ⟨r, hr⟩ := init_returns env fuel (Lv2Plugin.ctor env.m_active_before)
        filename label extra hstop
      simp only [hr]
      cases hret : r.ret with
      | true =>
        simp only [if_true]
        exact ⟨_, rfl⟩
      | false =>
        obtain ⟨cb, hcb⟩ := init_destructor_defined env fuel _ filename label extra r rfl hr
          r.plugin.m_active_before
        obtain ⟨tr, htr, _⟩ := destructor_of_callbacks _ cb hcb
        have htr' : r.plugin.destructor = some tr := htr
        simp only [Bool.false_eq_true, if_false, htr']
        exact ⟨_, rfl⟩
    · simp only [ge_iff_le, hid, if_false]
      exact ⟨_, rfl⟩
  · intro ra hadd
    unfold add_plugin_lv2 at hadd
    by_cases hid : 0 ≤ get_new_plugin_id g.CarlaPlugins
    · simp only [ge_iff_le, hid, if_true] at hadd
      cases hr : (Lv2Plugin.ctor env.m_active_before).init env fuel filename label extra with
      | none => simp [hr] at hadd
      | some r =>
        simp only [hr] at hadd
        cases hret : r.ret with
        | true =>
          simp only [hret, if_true, Option.some.injEq] at hadd
          subst hadd
          have hlt : (get_new_plugin_id g.CarlaPlugins).toNat < g.CarlaPlugins.length := by
            rcases get_new_plugin_id_spec g.CarlaPlugins with h1 | ⟨_, h2, _⟩
            · rw [h1] at hid; exact absurd hid (by decide)
            · exact h2
          obtain ⟨rdf, he, hname⟩ :=
            init_success_name env fuel _ filename label extra r hr hret
          refine ⟨⟨fun _ => ⟨hid, r, rfl, hret⟩, fun _ => hid⟩, fun _ => ?_,
            fun hneg => absurd hid hneg⟩
          refine ⟨rfl, hlt, r, rdf, rfl, he, hname, ?_, ?_, ?_⟩
          · show (g.CarlaPlugins.set _ (some r.plugin))[_]? = _
            rw [List.getElem?_set_self hlt]
          · intro hlt'
            show (g.unique_names.set _ r.plugin.m_name)[_]? = _
            rw [List.getElem?_set_self hlt']
          · intro k hk
            constructor
            · show (g.CarlaPlugins.set _ (some r.plugin))[k]? = _
              rw [List.getElem?_set_ne (Ne.symm hk)]
            · show (g.unique_names.set _ r.plugin.m_name)[k]? = _
              rw [List.getElem?_set_ne (Ne.symm hk)]
        | false =>
          simp only [hret, Bool.false_eq_true, if_false] at hadd
          cases htr : r.plugin.destructor with
          | none => simp [htr] at hadd
          | some tr =>
            simp only [htr, Option.some.injEq] at hadd
            subst hadd
            obtain ⟨msg, hmsg⟩ :=
              init_failure_error env fuel _ filename label extra r hr hret
            have hneg1 : ¬ (0 : Int) ≤ -1 := by decide
            refine ⟨⟨fun hc => absurd hc hneg1, ?_⟩,
              fun hc => absurd hc hneg1, fun _ => ?_⟩
            · rintro ⟨_, r', hr', hret'⟩
              cases hr'
              rw [hret] at hret'
              cases hret'
            · exact ⟨rfl, ⟨msg, List.mem_append_left _ hmsg⟩, rfl, rfl,
                fun hneg => absurd hid hneg⟩
    · simp only [ge_iff_le, hid, if_false, Option.some.injEq] at hadd
      subst hadd
      have hm1 : get_new_plugin_id g.CarlaPlugins = -1 := by
        rcases get_new_plugin_id_spec g.CarlaPlugins with h1 | ⟨h2, _⟩
        · exact h1
        · exact absurd h2 hid
      refine ⟨⟨fun hc => absurd hc hid, fun hc => absurd hc.1 hid⟩,
        fun hc => absurd hc hid, fun _ => ?_⟩
      exact ⟨hm1, ⟨_, List.mem_singleton.2 rfl⟩, rfl, rfl, fun _ => rfl⟩

/-- Witness of C5: on a registry whose slot 0 is taken, a successful call returns 1 and
fills slot 1 of both arrays; with JACK refusing the registration the call returns -1 and
leaves `unique_names` as it was. -/
theorem C5_add_plugin_atomic_witness :
    (∃ ra, add_plugin_lv2 (example_env (some 1000) true) 5 example_globals "/lib/verb.so"
        "urn:test:verb" (some example_rdf) = some ra)
      ∧ (add_plugin_lv2 (example_env (some 1000) true) 5 example_globals "/lib/verb.so"
          "urn:test:verb" (some example_rdf)).map
            (fun ra => (ra.ret, ra.globals.unique_names))
          = some (1, [some "Reverb", some "Reverb", none])
      ∧ (add_plugin_lv2 (example_env (some 1000) false) 5 example_globals "/lib/verb.so"
          "urn:test:verb" (some example_rdf)).map
            (fun ra => (ra.ret, ra.globals.unique_names, set_last_error_calls ra.trace))
          = some (-1, [some "Reverb", none, none], ["Failed to register plugin in JACK"]) := by
  refine ⟨(C5_add_plugin_atomic (example_env (some 1000) true) 5 example_globals
    "/lib/verb.so" "urn:test:verb" (some example_rdf)).1 ?_, by decide, by decide⟩
  intro rdf descfn he _ hs
  have hd : example_descfn (some 1000) = descfn := by
    have : (example_env (some 1000) true).lib_symbol "lv2_descriptor"
        = some (example_descfn (some 1000)) := by simp [example_env]
    rw [this] at hs
    exact Option.some.inj hs
  subst hd
  refine ⟨1, by decide, by norm_num, ?_, Or.inr ⟨_, rfl, rfl⟩⟩
  intro j hj
  interval_cases j
  exact ⟨_, rfl, by decide⟩

end Carla
